import Mathlib

/-! # OTA update of the PocketBook port of CoolReader (`cr3gui/src/ota_update.cpp`)

A shallow embedding of the update-resolution code: the version check, the
availability probe, the linked-device lookup, the URL templating, the
orchestrator `OTA_update` and the package validation `OTA_gotValidPackage`.

Conventions of the embedding.

* A string (`const char *`, `lString8`, `lString16`) is the list of its
  characters before the terminating NUL; the conversions between the three
  representations (`lString16(const char *)`, `UnicodeToUtf8`, `c_str`) keep
  the characters and are therefore not represented.
* The collaborators that are called but not defined in the file
  (`pbNetwork`, `web::get`, `getPbModelNumber`, the translation macro, the
  stream library) are fields of an environment; the answer of a collaborator
  may depend on everything that happened before the call.
* Every call of a collaborator and every user-interface call is recorded, in
  program order, in a trace; each operation maps the trace before the call
  to its result and the trace after it.
* The configuration constants come from headers and are parameters.
-/

namespace OtaUpdate

/-- Strings are lists of characters. -/
abbrev Str := List Char

/-- C `strlen`: the number of characters before the terminator. -/
def strlen (s : Str) : Nat := s.length

/-- C `strcmp`: zero when the two strings are equal, otherwise the sign of
the first difference (a missing character counts as smaller). -/
def strcmp : Str → Str → Int
  | [], [] => 0
  | [], _ :: _ => -1
  | _ :: _, [] => 1
  | a :: as, b :: bs =>
    if a = b then strcmp as bs else if a.toNat < b.toNat then -1 else 1

/-- Modelled from the spec: the scan behind `lString16::replace(findStr,
replaceStr)`, a member of the string class of crengine whose definition is
not in `ota_update.cpp`. The spec (section 4.2) says that the expansion
"replaces every occurrence of a fixed placeholder token with the device
model string": the text is read from left to right, every occurrence of
`findStr` that is met is replaced by `replaceStr`, reading resumes right
after the occurrence, and inserted text is not read again. The number is the
count of characters of the current occurrence that are still to be skipped. -/
def replaceScan (findStr replaceStr : Str) : Nat → Str → Str
  | _, [] => []
  | k + 1, _ :: cs => replaceScan findStr replaceStr k cs
  | 0, c :: cs =>
    if findStr <+: c :: cs then
      replaceStr ++ replaceScan findStr replaceStr (findStr.length - 1) cs
    else
      c :: replaceScan findStr replaceStr 0 cs

/-- Modelled from the spec: `s.replace(findStr, replaceStr)` of crengine
(definition not in `ota_update.cpp`), the value of `s` after the call: every
occurrence of `findStr` replaced by `replaceStr`. -/
def lString16_replace (s findStr replaceStr : Str) : Str :=
  replaceScan findStr replaceStr 0 s

/-- The placeholder token of the URL masks and progress texts. -/
def DEVICE : Str := "[DEVICE]".toList

/-- Number of positions of `s` at which an occurrence of `pat` starts. -/
def occurrences (pat : Str) : Str → Nat
  | [] => if pat = [] then 1 else 0
  | c :: cs => (if pat <+: c :: cs then 1 else 0) + occurrences pat cs

/-- Icons of the dialogs (`inkview.h`). -/
inductive Icon where
  | ICON_INFORMATION
  | ICON_ERROR
  | ICON_WARNING
  deriving DecidableEq, Repr

/-- Open modes of a stream; the file only reads. -/
inductive lvopen_mode_t where
  | LVOM_READ
  deriving DecidableEq, Repr

/-- Handle of an opened container (a directory or an archive). -/
abbrev Container := Nat

/-- Handle of an opened stream. -/
abbrev Stream := Nat

/-- What the program does to the outside world, in program order. -/
inductive Event where
  | pbNetwork (action : Str) (result : Bool)
  | webGet (url : Str)
  | getPbModelNumber
  | OpenProgressbar (icon : Icon) (title text : Str) (percent : Int)
  | UpdateProgressbar (text : Str) (percent : Int)
  | CloseProgressbar
  | Message (icon : Icon) (title text : Str) (timeout : Nat)
  | LVOpenDirectory (path : Str)
  | OpenStream (container : Container) (name : Str) (mode : lvopen_mode_t)
  | LVOpenArchieve (stream : Stream)
  deriving DecidableEq, Repr

/-- The events so far, oldest first. -/
abbrev Trace := List Event

/-- The configuration constants of `ota_update.h` and `cr3pocketbook.h`. -/
structure Config where
  OTA_VERSION : Str
  OTA_VERSION_MAX_LENGTH : Nat
  CR_PB_VERSION : Str
  OTA_EXISTS_STR : Str
  OTA_LINK_MASK : Str
  OTA_URL_MASK_TEST : Str
  OTA_URL_MASK : Str
  OTA_DOWNLOAD_DIR : Str
  OTA_PACKAGE_NAME : Str

/-- The collaborators of the network side. `pbNetwork t action` is the
answer of `pbNetwork(action)` when called after the events `t`,
`webGet t url` the body returned by `web::get(url)` after the events `t`,
`getPbModelNumber` the model of the device and `tr` the translation
macro. -/
structure Env where
  pbNetwork : Trace → Str → Bool
  webGet : Trace → Str → Str
  getPbModelNumber : Str
  tr : Str → Str

/-- The stream library: every function returns `none` for a null handle. -/
structure FileSystem where
  LVOpenDirectory : Str → Option Container
  OpenStream : Container → Str → lvopen_mode_t → Option Stream
  LVOpenArchieve : Stream → Option Container

/-- Title of the progress bar. -/
def txtTitle : Str := "OTA Update".toList

/-- First text of the progress bar. -/
def txtCheckingNetwork : Str := "Checking network connection...".toList

/-- Message of the failed first connectivity check. -/
def txtNoNetwork : Str := "Couldn't connect to the network!".toList

/-- Progress text of the version check. -/
def txtCheckingUpdates : Str := "Checking for updates...".toList

/-- Message shown when there is no new version. -/
def txtLatest : Str := "You have the latest version.".toList

/-- Progress text of a probe. -/
def txtSearchingPackage : Str := "Searching update package for [DEVICE]...".toList

/-- Progress text of the download step. -/
def txtDownloading : Str := "Downloading package for [DEVICE]...".toList

/-- Progress text of the link lookup. -/
def txtSearchingTwin : Str := "Searching twin device for [DEVICE]...".toList

/-- Message shown when the device has no package and no link. -/
def txtNotAvailable : Str := "Update is not available for your device!\nDevice model: ".toList

/-- Message shown when the probe of the linked device fails. -/
def txtFailed : Str := "Failed updating!".toList

/-- Message of the first gate of the package validation. -/
def txtNoDir : Str := "Couldn't open download dir!".toList

/-- Message of the second gate of the package validation. -/
def txtNoFile : Str := "Couldn't open downloaded file!".toList

/-- Message of the third gate of the package validation. -/
def txtNotArchive : Str := "Downloaded file is not an archive!".toList

/-- Message of the fourth gate of the package validation. -/
def txtInvalidPackage : Str := "Invalid update package!".toList

/-- Path of the binary inside the update archive. -/
def binaryEntry : Str := "system/bin/cr3-pb.app".toList

/-- The argument of every connectivity check. -/
def connect : Str := "connect".toList

/-- The title of every message box. -/
def CoolReader : Str := "CoolReader".toList

/-- A call of `pbNetwork(action)`. -/
def pbNetwork (env : Env) (action : Str) (t : Trace) : Bool × Trace :=
  (env.pbNetwork t action, t ++ [Event.pbNetwork action (env.pbNetwork t action)])

/-- A call of `web::get(url)`. -/
def webGet (env : Env) (url : Str) (t : Trace) : Str × Trace :=
  (env.webGet t url, t ++ [Event.webGet url])

/-- `OTA_isNewVersion`. -/
def OTA_isNewVersion (cfg : Config) (env : Env) (t : Trace) : Bool × Trace :=
  let c := pbNetwork env connect t
  if !c.1 then (false, c.2)
  else
    let response := webGet env cfg.OTA_VERSION c.2
    (decide (strlen response.1 > 5) &&
      decide (strlen response.1 ≤ cfg.OTA_VERSION_MAX_LENGTH) &&
      decide (strcmp cfg.CR_PB_VERSION response.1 ≠ 0), response.2)

/-- `OTA_downloadExists`. -/
def OTA_downloadExists (cfg : Config) (env : Env) (url : Str) (t : Trace) : Bool × Trace :=
  let c := pbNetwork env connect t
  if !c.1 then (false, c.2)
  else
    let response := webGet env url c.2
    (decide (strlen response.1 = strlen cfg.OTA_EXISTS_STR) &&
      decide (strcmp cfg.OTA_EXISTS_STR response.1 = 0), response.2)

/-- `OTA_getLinkedDevice`; the string built from `NULL` is the empty one. -/
def OTA_getLinkedDevice (cfg : Config) (env : Env) (deviceModel : Str) (t : Trace) :
    Str × Trace :=
  let c := pbNetwork env connect t
  if !c.1 then ([], c.2)
  else
    let url := lString16_replace cfg.OTA_LINK_MASK DEVICE deviceModel
    let response := webGet env url c.2
    if strlen response.1 > 0 ∧ strlen response.1 ≤ cfg.OTA_VERSION_MAX_LENGTH then
      (response.1, response.2)
    else ([], response.2)

/-- `OTA_genUrl`. -/
def OTA_genUrl (mask : Str) (deviceModel : Str) : Str :=
  lString16_replace mask DEVICE deviceModel

/-- `OTA_updateFrom`. -/
def OTA_updateFrom (url : Str) (t : Trace) : Bool × Trace :=
  (false, t ++ [Event.CloseProgressbar,
    Event.Message Icon.ICON_INFORMATION CoolReader url 5000])

/-- `OTA_progress(text, progress, deviceModel)`. -/
def OTA_progress (text : Str) (progress : Int) (deviceModel : Str) (t : Trace) : Trace :=
  t ++ [Event.UpdateProgressbar (lString16_replace text DEVICE deviceModel) progress]

/-- `OTA_progress(text, progress)`. -/
def OTA_progress2 (text : Str) (progress : Int) (t : Trace) : Trace :=
  OTA_progress text progress [] t

/-- `OTA_update`. -/
def OTA_update (cfg : Config) (env : Env) (t : Trace) : Bool × Trace :=
  let t0 := t ++ [Event.OpenProgressbar Icon.ICON_INFORMATION
    (env.tr txtTitle) (env.tr txtCheckingNetwork) 0]
  let c := pbNetwork env connect t0
  if !c.1 then
    (false, c.2 ++ [Event.Message Icon.ICON_ERROR CoolReader
      (env.tr txtNoNetwork) 2000])
  else
    let t1 := OTA_progress2 (env.tr txtCheckingUpdates) 10 c.2
    let v := OTA_isNewVersion cfg env t1
    if !v.1 then
      (false, v.2 ++ [Event.CloseProgressbar,
        Event.Message Icon.ICON_INFORMATION CoolReader
          (env.tr txtLatest) 2000])
    else
      let deviceModel := env.getPbModelNumber
      let t2 := v.2 ++ [Event.getPbModelNumber]
      let t3 := OTA_progress (env.tr txtSearchingPackage)
        20 deviceModel t2
      let p := OTA_downloadExists cfg env (OTA_genUrl cfg.OTA_URL_MASK_TEST deviceModel) t3
      if p.1 then
        let t4 := OTA_progress (env.tr txtDownloading)
          50 deviceModel p.2
        OTA_updateFrom (OTA_genUrl cfg.OTA_URL_MASK deviceModel) t4
      else
        let t5 := OTA_progress (env.tr txtSearchingTwin)
          30 deviceModel p.2
        let linkedDevice := OTA_getLinkedDevice cfg env deviceModel t5
        if linkedDevice.1.isEmpty then
          (false, linkedDevice.2 ++ [Event.CloseProgressbar,
            Event.Message Icon.ICON_WARNING CoolReader
              (env.tr txtNotAvailable
                ++ deviceModel) 5000])
        else
          let t6 := OTA_progress (env.tr txtSearchingPackage)
            40 linkedDevice.1 linkedDevice.2
          let q := OTA_downloadExists cfg env
            (OTA_genUrl cfg.OTA_URL_MASK_TEST linkedDevice.1) t6
          if q.1 then
            let t7 := OTA_progress (env.tr txtDownloading)
              50 linkedDevice.1 q.2
            OTA_updateFrom (OTA_genUrl cfg.OTA_URL_MASK linkedDevice.1) t7
          else
            (false, q.2 ++ [Event.CloseProgressbar,
              Event.Message Icon.ICON_ERROR CoolReader
                (env.tr txtFailed) 2000])

/-- `OTA_installUpdatePackage`. -/
def OTA_installUpdatePackage : Bool := true

/-- `OTA_gotValidPackage`. -/
def OTA_gotValidPackage (cfg : Config) (env : Env) (fs : FileSystem) (t : Trace) :
    Bool × Trace :=
  let dir := cfg.OTA_DOWNLOAD_DIR
  let t1 := t ++ [Event.LVOpenDirectory dir]
  match fs.LVOpenDirectory dir with
  | none =>
    (false, t1 ++ [Event.Message Icon.ICON_ERROR CoolReader
      (env.tr txtNoDir) 2000])
  | some dirHandle =>
    let file := cfg.OTA_PACKAGE_NAME
    let t2 := t1 ++ [Event.OpenStream dirHandle file lvopen_mode_t.LVOM_READ]
    match fs.OpenStream dirHandle file lvopen_mode_t.LVOM_READ with
    | none =>
      (false, t2 ++ [Event.Message Icon.ICON_ERROR CoolReader
        (env.tr txtNoFile) 2000])
    | some fileHandle =>
      let t3 := t2 ++ [Event.LVOpenArchieve fileHandle]
      match fs.LVOpenArchieve fileHandle with
      | none =>
        (false, t3 ++ [Event.Message Icon.ICON_ERROR CoolReader
          (env.tr txtNotArchive) 2000])
      | some archive =>
        let t4 := t3 ++ [Event.OpenStream archive binaryEntry
          lvopen_mode_t.LVOM_READ]
        match fs.OpenStream archive binaryEntry
            lvopen_mode_t.LVOM_READ with
        | none =>
          (false, t4 ++ [Event.Message Icon.ICON_ERROR CoolReader
            (env.tr txtInvalidPackage) 2000])
        | some _ => (true, t4)

/-- The text `s0 sep s1 sep ... sep sn`: the pieces `s0`, `s1`, ..., `sn`
with `sep` between neighbours. -/
def glue (sep : Str) (s0 : Str) : List Str → Str
  | [] => s0
  | s :: rest => s0 ++ sep ++ glue sep s rest

/-- The URLs fetched by the events of a trace, in order. -/
def fetches : Trace → List Str
  | [] => []
  | Event.webGet url :: t => url :: fetches t
  | _ :: t => fetches t

/-- A network in which every check succeeds and every fetch returns the
version `1.2.3.4`; used to instantiate the theorems. -/
def envUp : Env :=
  ⟨fun _ _ => true, fun _ _ => "1.2.3.4".toList, "626".toList, id⟩

/-- A network whose fetches all return the body `yes`. -/
def envYes : Env :=
  ⟨fun _ _ => true, fun _ _ => "yes".toList, "626".toList, id⟩

/-- A network in which no connectivity check succeeds. -/
def envDown : Env :=
  ⟨fun _ _ => false, fun _ _ => "yes".toList, "626".toList, id⟩

/-- A configuration used to instantiate the theorems. -/
def cfgSample : Config :=
  ⟨"v".toList, 15, "1.2.3.3".toList, "yes".toList, "l/[DEVICE]".toList,
    "t/[DEVICE]".toList, "d/[DEVICE]".toList, "dir".toList, "pkg".toList⟩

/-- Whether an event is a message box. -/
def Event.isMessage : Event → Bool
  | Event.Message _ _ _ _ => true
  | _ => false

/-- Whether an event opens the progress bar. -/
def Event.isOpenProgressbar : Event → Bool
  | Event.OpenProgressbar _ _ _ _ => true
  | _ => false

/-- The message boxes among the events of a trace, in order. -/
def messages (t : Trace) : Trace := t.filter Event.isMessage

/-- The events of a network operation whose connectivity check answers `ok`:
the check and, after a successful one, the fetch of `url`. -/
def netEvents (ok : Bool) (url : Str) : Trace :=
  if ok then [Event.pbNetwork connect true, Event.webGet url]
  else [Event.pbNetwork connect false]

/-- The trace at the first connectivity check of the run of `OTA_update`
started after the events `t`. -/
def atStart (env : Env) (t : Trace) : Trace :=
  t ++ [Event.OpenProgressbar Icon.ICON_INFORMATION
    (env.tr txtTitle) (env.tr txtCheckingNetwork) 0]

/-- The first connectivity check of the run. -/
def firstCheck (env : Env) (t : Trace) : Bool × Trace :=
  pbNetwork env connect (atStart env t)

/-- The trace at the call of `OTA_isNewVersion` in the run. -/
def versionStart (env : Env) (t : Trace) : Trace :=
  OTA_progress2 (env.tr txtCheckingUpdates) 10 (firstCheck env t).2

/-- The call of `OTA_isNewVersion` in the run. -/
def versionStage (cfg : Config) (env : Env) (t : Trace) : Bool × Trace :=
  OTA_isNewVersion cfg env (versionStart env t)

/-- The trace at the probe of the device's own package in the run. -/
def primaryStart (cfg : Config) (env : Env) (t : Trace) : Trace :=
  OTA_progress (env.tr txtSearchingPackage) 20 env.getPbModelNumber
    ((versionStage cfg env t).2 ++ [Event.getPbModelNumber])

/-- The probe of the device's own package in the run. -/
def primaryStage (cfg : Config) (env : Env) (t : Trace) : Bool × Trace :=
  OTA_downloadExists cfg env (OTA_genUrl cfg.OTA_URL_MASK_TEST env.getPbModelNumber)
    (primaryStart cfg env t)

/-- The trace at the call of `OTA_getLinkedDevice` in the run. -/
def linkStart (cfg : Config) (env : Env) (t : Trace) : Trace :=
  OTA_progress (env.tr txtSearchingTwin) 30 env.getPbModelNumber (primaryStage cfg env t).2

/-- The call of `OTA_getLinkedDevice` in the run. -/
def linkStage (cfg : Config) (env : Env) (t : Trace) : Str × Trace :=
  OTA_getLinkedDevice cfg env env.getPbModelNumber (linkStart cfg env t)

/-- The trace at the probe of the linked device's package in the run. -/
def linkedStart (cfg : Config) (env : Env) (t : Trace) : Trace :=
  OTA_progress (env.tr txtSearchingPackage) 40 (linkStage cfg env t).1 (linkStage cfg env t).2

/-- The probe of the linked device's package in the run. -/
def linkedStage (cfg : Config) (env : Env) (t : Trace) : Bool × Trace :=
  OTA_downloadExists cfg env (OTA_genUrl cfg.OTA_URL_MASK_TEST (linkStage cfg env t).1)
    (linkedStart cfg env t)

/-- The events added by the run of `OTA_update` started after the events
`t`. -/
def runEvents (cfg : Config) (env : Env) (t : Trace) : Trace :=
  (OTA_update cfg env t).2.drop t.length

/-- The events of a run written out along the decisions met on the way:
`b0`, `b1`, `b2`, `b3`, `b4` are the answers of the five connectivity checks
(of the run itself, of the version check, of the first probe, of the link
lookup and of the second probe), `ver`, `prim` and `linked` the results of
the version check and of the two probes, `L` the linked model. -/
def script (cfg : Config) (env : Env) (b0 b1 ver b2 prim b3 : Bool) (L : Str)
    (b4 linked : Bool) : Trace :=
  [Event.OpenProgressbar Icon.ICON_INFORMATION (env.tr txtTitle)
      (env.tr txtCheckingNetwork) 0,
    Event.pbNetwork connect b0] ++
  if !b0 then [Event.Message Icon.ICON_ERROR CoolReader (env.tr txtNoNetwork) 2000]
  else
    [Event.UpdateProgressbar (lString16_replace (env.tr txtCheckingUpdates) DEVICE []) 10] ++
    netEvents b1 cfg.OTA_VERSION ++
    if !ver then
      [Event.CloseProgressbar,
        Event.Message Icon.ICON_INFORMATION CoolReader (env.tr txtLatest) 2000]
    else
      [Event.getPbModelNumber,
        Event.UpdateProgressbar
          (lString16_replace (env.tr txtSearchingPackage) DEVICE env.getPbModelNumber) 20] ++
      netEvents b2 (OTA_genUrl cfg.OTA_URL_MASK_TEST env.getPbModelNumber) ++
      if prim then
        [Event.UpdateProgressbar
            (lString16_replace (env.tr txtDownloading) DEVICE env.getPbModelNumber) 50,
          Event.CloseProgressbar,
          Event.Message Icon.ICON_INFORMATION CoolReader
            (OTA_genUrl cfg.OTA_URL_MASK env.getPbModelNumber) 5000]
      else
        [Event.UpdateProgressbar
          (lString16_replace (env.tr txtSearchingTwin) DEVICE env.getPbModelNumber) 30] ++
        netEvents b3 (lString16_replace cfg.OTA_LINK_MASK DEVICE env.getPbModelNumber) ++
        if L.isEmpty then
          [Event.CloseProgressbar,
            Event.Message Icon.ICON_WARNING CoolReader
              (env.tr txtNotAvailable ++ env.getPbModelNumber) 5000]
        else
          [Event.UpdateProgressbar
            (lString16_replace (env.tr txtSearchingPackage) DEVICE L) 40] ++
          netEvents b4 (OTA_genUrl cfg.OTA_URL_MASK_TEST L) ++
          if linked then
            [Event.UpdateProgressbar (lString16_replace (env.tr txtDownloading) DEVICE L) 50,
              Event.CloseProgressbar,
              Event.Message Icon.ICON_INFORMATION CoolReader
                (OTA_genUrl cfg.OTA_URL_MASK L) 5000]
          else
            [Event.CloseProgressbar,
              Event.Message Icon.ICON_ERROR CoolReader (env.tr txtFailed) 2000]

/-- A network that answers every fetch with the current version. -/
def envSame : Env :=
  ⟨fun _ _ => true, fun _ _ => "1.2.3.3".toList, "626".toList, id⟩

/-- A network with a new version and a package for every device. -/
def envProbe : Env :=
  ⟨fun _ _ => true, fun _ url => if url = "v".toList then "1.2.3.4".toList else "yes".toList,
    "626".toList, id⟩

/-- A network with a new version, no package and no link. -/
def envNoLink : Env :=
  ⟨fun _ _ => true, fun _ url => if url = "v".toList then "1.2.3.4".toList else [],
    "626".toList, id⟩

/-- The bodies of a server with a new version, on which device 626 has no
package and is linked to device 627, which has one. -/
def twinBody (url : Str) : Str :=
  if url = "v".toList then "1.2.3.4".toList
  else if url = "l/626".toList then "627".toList
  else if url = "t/627".toList then "yes".toList
  else "no".toList

/-- A network in front of the server of `twinBody`. -/
def envTwin : Env :=
  ⟨fun _ _ => true, fun _ url => twinBody url, "626".toList, id⟩

/-- A network with a new version, on which device 626 has no package and is
linked to device 627, which has none either. -/
def envTwinFail : Env :=
  ⟨fun _ _ => true,
    fun _ url => if url = "v".toList then "1.2.3.4".toList
      else if url = "l/626".toList then "627".toList else "no".toList,
    "626".toList, id⟩

/-- The network of `envTwin` with one outage: the connectivity check made
after seven events, the one of the first probe of a run started on the empty
trace, fails; every other check succeeds. -/
def envFlap : Env :=
  ⟨fun t _ => t.length != 7, fun _ url => twinBody url, "626".toList, id⟩

/-! ## Strings -/

theorem strcmp_self (a : Str) : strcmp a a = 0 := by
  induction a with
  | nil => rfl
  | cons c cs ih => simp [strcmp, ih]

theorem strcmp_eq_zero_iff (a b : Str) : strcmp a b = 0 ↔ a = b := by
  constructor
  · intro h
    induction a generalizing b with
    | nil =>
      cases b with
      | nil => rfl
      | cons d ds => simp [strcmp] at h
    | cons c cs ih =>
      cases b with
      | nil => simp [strcmp] at h
      | cons d ds =>
        by_cases hcd : c = d
        · subst hcd
          simp only [strcmp, if_true] at h
          rw [ih ds h]
        · simp only [strcmp, if_neg hcd] at h
          split at h <;> simp at h
  · rintro rfl
    exact strcmp_self a

/-! ## The three network operations -/

/-- C1. When the connectivity check of `OTA_isNewVersion` succeeds and the
version fetch returns the body `V`, the function returns true exactly when
`5 < len(V) <= OTA_VERSION_MAX_LENGTH` and `V` differs from the current
version `CR_PB_VERSION`. -/
theorem C1_isNewVersion_iff (cfg : Config) (env : Env) (t : Trace) (V : Str)
    (hc : env.pbNetwork t connect = true)
    (hV : env.webGet (t ++ [Event.pbNetwork connect true]) cfg.OTA_VERSION = V) :
    (OTA_isNewVersion cfg env t).1 = true ↔
      (5 < V.length ∧ V.length ≤ cfg.OTA_VERSION_MAX_LENGTH ∧ V ≠ cfg.CR_PB_VERSION) := by
  have hne : strcmp cfg.CR_PB_VERSION V ≠ 0 ↔ V ≠ cfg.CR_PB_VERSION := by
    rw [Ne, strcmp_eq_zero_iff]
    exact ⟨fun h e => h e.symm, fun h e => h e.symm⟩
  simp only [OTA_isNewVersion, pbNetwork, webGet, hc, hV, strlen, Bool.not_true,
    Bool.false_eq_true, if_false, Bool.and_eq_true, decide_eq_true_eq, hne, and_assoc]

/-- C1, instantiated: the body `1.2.3.4` against the current version
`1.2.3.3` and the bound 15. -/
theorem C1_isNewVersion_iff_witness :
    (OTA_isNewVersion cfgSample envUp []).1 = true ↔
      (5 < "1.2.3.4".toList.length ∧ "1.2.3.4".toList.length ≤ cfgSample.OTA_VERSION_MAX_LENGTH
        ∧ "1.2.3.4".toList ≠ cfgSample.CR_PB_VERSION) :=
  C1_isNewVersion_iff cfgSample envUp [] "1.2.3.4".toList rfl rfl

/-- C2. When the connectivity check of `OTA_downloadExists` succeeds and the
fetch of `url` returns the body `B`, the function returns true exactly when
`B` is the sentinel `OTA_EXISTS_STR`; so it returns false for the empty body
(the sentinel being a non-empty string), for every proper prefix of the
sentinel and for every body that strictly extends the sentinel. -/
theorem C2_downloadExists_iff (cfg : Config) (env : Env) (url : Str) (t : Trace) (B : Str)
    (hc : env.pbNetwork t connect = true)
    (hB : env.webGet (t ++ [Event.pbNetwork connect true]) url = B) :
    ((OTA_downloadExists cfg env url t).1 = true ↔ B = cfg.OTA_EXISTS_STR) ∧
    (B = [] → cfg.OTA_EXISTS_STR ≠ [] → (OTA_downloadExists cfg env url t).1 = false) ∧
    (B <+: cfg.OTA_EXISTS_STR → B ≠ cfg.OTA_EXISTS_STR →
      (OTA_downloadExists cfg env url t).1 = false) ∧
    (cfg.OTA_EXISTS_STR <+: B → B ≠ cfg.OTA_EXISTS_STR →
      (OTA_downloadExists cfg env url t).1 = false) := by
  have key : (OTA_downloadExists cfg env url t).1 = true ↔ B = cfg.OTA_EXISTS_STR := by
    simp only [OTA_downloadExists, pbNetwork, webGet, hc, hB, strlen, Bool.not_true,
      Bool.false_eq_true, if_false, Bool.and_eq_true, decide_eq_true_eq, strcmp_eq_zero_iff]
    constructor
    · rintro ⟨_, h⟩
      exact h.symm
    · rintro rfl
      exact ⟨rfl, rfl⟩
  have off : B ≠ cfg.OTA_EXISTS_STR → (OTA_downloadExists cfg env url t).1 = false := by
    intro h
    cases hr : (OTA_downloadExists cfg env url t).1 with
    | false => rfl
    | true => exact absurd (key.mp hr) h
  refine ⟨key, ?_, fun _ h => off h, fun _ h => off h⟩
  intro hb hs
  apply off
  rw [hb]
  exact fun e => hs e.symm

/-- C2, instantiated: the body `yes` against the sentinel `yes`. -/
theorem C2_downloadExists_iff_witness :
    ((OTA_downloadExists cfgSample envYes "u".toList []).1 = true ↔
      "yes".toList = cfgSample.OTA_EXISTS_STR) ∧
    ("yes".toList = [] → cfgSample.OTA_EXISTS_STR ≠ [] →
      (OTA_downloadExists cfgSample envYes "u".toList []).1 = false) ∧
    ("yes".toList <+: cfgSample.OTA_EXISTS_STR → "yes".toList ≠ cfgSample.OTA_EXISTS_STR →
      (OTA_downloadExists cfgSample envYes "u".toList []).1 = false) ∧
    (cfgSample.OTA_EXISTS_STR <+: "yes".toList → "yes".toList ≠ cfgSample.OTA_EXISTS_STR →
      (OTA_downloadExists cfgSample envYes "u".toList []).1 = false) :=
  C2_downloadExists_iff cfgSample envYes "u".toList [] "yes".toList rfl rfl

/-- C3. When the connectivity check of `OTA_getLinkedDevice` succeeds and
the link lookup returns the body `R`, the function returns the empty model
if `len(R) = 0` or `len(R) > OTA_VERSION_MAX_LENGTH`, and returns `R`
itself, a non-empty model, if `0 < len(R) <= OTA_VERSION_MAX_LENGTH`. -/
theorem C3_getLinkedDevice (cfg : Config) (env : Env) (deviceModel : Str) (t : Trace)
    (R : Str) (hc : env.pbNetwork t connect = true)
    (hR : env.webGet (t ++ [Event.pbNetwork connect true])
      (lString16_replace cfg.OTA_LINK_MASK DEVICE deviceModel) = R) :
    ((R.length = 0 ∨ R.length > cfg.OTA_VERSION_MAX_LENGTH) →
      (OTA_getLinkedDevice cfg env deviceModel t).1 = []) ∧
    ((0 < R.length ∧ R.length ≤ cfg.OTA_VERSION_MAX_LENGTH) →
      (OTA_getLinkedDevice cfg env deviceModel t).1 = R ∧
      (OTA_getLinkedDevice cfg env deviceModel t).1 ≠ []) := by
  constructor
  · intro h
    have hn : ¬ (R.length > 0 ∧ R.length ≤ cfg.OTA_VERSION_MAX_LENGTH) := by omega
    simp [OTA_getLinkedDevice, pbNetwork, webGet, hc, hR, strlen, hn]
  · intro h
    have hp : R.length > 0 ∧ R.length ≤ cfg.OTA_VERSION_MAX_LENGTH := h
    have hne : R ≠ [] := List.ne_nil_of_length_pos h.1
    simp [OTA_getLinkedDevice, pbNetwork, webGet, hc, hR, strlen, hp, hne]

/-- C3, instantiated: the lookup answers `yes`, within the bound 15. -/
theorem C3_getLinkedDevice_witness :
    (("yes".toList.length = 0 ∨ "yes".toList.length > cfgSample.OTA_VERSION_MAX_LENGTH) →
      (OTA_getLinkedDevice cfgSample envYes "626".toList []).1 = []) ∧
    ((0 < "yes".toList.length ∧ "yes".toList.length ≤ cfgSample.OTA_VERSION_MAX_LENGTH) →
      (OTA_getLinkedDevice cfgSample envYes "626".toList []).1 = "yes".toList ∧
      (OTA_getLinkedDevice cfgSample envYes "626".toList []).1 ≠ []) :=
  C3_getLinkedDevice cfgSample envYes "626".toList [] "yes".toList rfl rfl

/-! ## Package validation -/

/-- C4. `OTA_gotValidPackage` returns true exactly when the four gates
succeed: the download directory opens, the package file opens for reading in
that directory, the opened file is accepted as an archive, and the entry
`system/bin/cr3-pb.app` opens for reading in that archive. It returns false
as soon as one of them fails, and a successful run went through the four
gates in this order. -/
theorem C4_gotValidPackage_iff (cfg : Config) (env : Env) (fs : FileSystem) (t : Trace) :
    ((OTA_gotValidPackage cfg env fs t).1 = true ↔
      ∃ dirHandle fileHandle archive binary,
        fs.LVOpenDirectory cfg.OTA_DOWNLOAD_DIR = some dirHandle ∧
        fs.OpenStream dirHandle cfg.OTA_PACKAGE_NAME lvopen_mode_t.LVOM_READ
          = some fileHandle ∧
        fs.LVOpenArchieve fileHandle = some archive ∧
        fs.OpenStream archive binaryEntry lvopen_mode_t.LVOM_READ
          = some binary) ∧
    (fs.LVOpenDirectory cfg.OTA_DOWNLOAD_DIR = none →
      (OTA_gotValidPackage cfg env fs t).1 = false) ∧
    (∀ dirHandle, fs.LVOpenDirectory cfg.OTA_DOWNLOAD_DIR = some dirHandle →
      fs.OpenStream dirHandle cfg.OTA_PACKAGE_NAME lvopen_mode_t.LVOM_READ = none →
      (OTA_gotValidPackage cfg env fs t).1 = false) ∧
    (∀ dirHandle fileHandle, fs.LVOpenDirectory cfg.OTA_DOWNLOAD_DIR = some dirHandle →
      fs.OpenStream dirHandle cfg.OTA_PACKAGE_NAME lvopen_mode_t.LVOM_READ
        = some fileHandle →
      fs.LVOpenArchieve fileHandle = none →
      (OTA_gotValidPackage cfg env fs t).1 = false) ∧
    (∀ dirHandle fileHandle archive,
      fs.LVOpenDirectory cfg.OTA_DOWNLOAD_DIR = some dirHandle →
      fs.OpenStream dirHandle cfg.OTA_PACKAGE_NAME lvopen_mode_t.LVOM_READ
        = some fileHandle →
      fs.LVOpenArchieve fileHandle = some archive →
      fs.OpenStream archive binaryEntry lvopen_mode_t.LVOM_READ = none →
      (OTA_gotValidPackage cfg env fs t).1 = false) ∧
    ((OTA_gotValidPackage cfg env fs t).1 = true →
      ∃ dirHandle fileHandle archive,
        (OTA_gotValidPackage cfg env fs t).2 = t ++
          [Event.LVOpenDirectory cfg.OTA_DOWNLOAD_DIR,
           Event.OpenStream dirHandle cfg.OTA_PACKAGE_NAME lvopen_mode_t.LVOM_READ,
           Event.LVOpenArchieve fileHandle,
           Event.OpenStream archive binaryEntry
             lvopen_mode_t.LVOM_READ]) := by
  refine ⟨?_, ?_, ?_, ?_, ?_, ?_⟩
  · cases h1 : fs.LVOpenDirectory cfg.OTA_DOWNLOAD_DIR with
    | none => simp [OTA_gotValidPackage, h1]
    | some d =>
      cases h2 : fs.OpenStream d cfg.OTA_PACKAGE_NAME lvopen_mode_t.LVOM_READ with
      | none => simp [OTA_gotValidPackage, h1, h2]
      | some f =>
        cases h3 : fs.LVOpenArchieve f with
        | none => simp [OTA_gotValidPackage, h1, h2, h3]
        | some a =>
          cases h4 : fs.OpenStream a binaryEntry lvopen_mode_t.LVOM_READ with
          | none => simp [OTA_gotValidPackage, h1, h2, h3, h4]
          | some b => simp [OTA_gotValidPackage, h1, h2, h3, h4]
  · intro h1
    simp [OTA_gotValidPackage, h1]
  · intro d h1 h2
    simp [OTA_gotValidPackage, h1, h2]
  · intro d f h1 h2 h3
    simp [OTA_gotValidPackage, h1, h2, h3]
  · intro d f a h1 h2 h3 h4
    simp [OTA_gotValidPackage, h1, h2, h3, h4]
  · cases h1 : fs.LVOpenDirectory cfg.OTA_DOWNLOAD_DIR with
    | none => simp [OTA_gotValidPackage, h1]
    | some d =>
      cases h2 : fs.OpenStream d cfg.OTA_PACKAGE_NAME lvopen_mode_t.LVOM_READ with
      | none => simp [OTA_gotValidPackage, h1, h2]
      | some f =>
        cases h3 : fs.LVOpenArchieve f with
        | none => simp [OTA_gotValidPackage, h1, h2, h3]
        | some a =>
          cases h4 : fs.OpenStream a binaryEntry lvopen_mode_t.LVOM_READ with
          | none => simp [OTA_gotValidPackage, h1, h2, h3, h4]
          | some b => simp [OTA_gotValidPackage, h1, h2, h3, h4]

/-! ## The placeholder expansion -/

theorem DEVICE_eq : DEVICE = ['[', 'D', 'E', 'V', 'I', 'C', 'E', ']'] := rfl

theorem replaceScan_drop (f r : Str) (k : Nat) (s : Str) :
    replaceScan f r k s = replaceScan f r 0 (s.drop k) := by
  induction s generalizing k with
  | nil => cases k <;> simp [replaceScan]
  | cons c cs ih =>
    cases k with
    | zero => simp
    | succ k => simp [replaceScan, ih k]

theorem replaceScan_match (f r rest : Str) (hf : f ≠ []) :
    replaceScan f r 0 (f ++ rest) = r ++ replaceScan f r 0 rest := by
  obtain ⟨c, f', rfl⟩ := List.exists_cons_of_ne_nil hf
  have hp : (c :: f') <+: c :: (f' ++ rest) := List.prefix_append (c :: f') rest
  simp only [List.cons_append, replaceScan, if_pos hp]
  rw [replaceScan_drop]
  simp

theorem replaceScan_skip (f r : Str) (c : Char) (cs : Str) (h : ¬ f <+: c :: cs) :
    replaceScan f r 0 (c :: cs) = c :: replaceScan f r 0 cs := by
  simp [replaceScan, h]

/-- No occurrence of `f` starts inside a non-empty text `s` free of `f`
when no proper end of `f` begins the continuation `y`. -/
theorem no_match_across (f s y : Str) (hs : ¬ f <:+: s) (hne : s ≠ [])
    (hy : ∀ k, 0 < k → k < f.length → ¬ f.drop k <+: y) : ¬ f <+: s ++ y := by
  intro hp
  rcases List.prefix_or_prefix_of_prefix hp (List.prefix_append s y) with h | h
  · exact hs h.isInfix
  · obtain ⟨u, hu⟩ := h
    subst hu
    have hu' : u <+: y := (List.prefix_append_right_inj s).mp hp
    by_cases hnil : u = []
    · subst hnil
      apply hs
      simp
    · have hpos : 0 < s.length := List.length_pos.mpr hne
      have hlt : s.length < (s ++ u).length := by
        have := List.length_pos.mpr hnil
        simp
        omega
      apply hy s.length hpos hlt
      simpa using hu'

theorem free_tail (f : Str) (c : Char) (s : Str) (h : ¬ f <:+: c :: s) : ¬ f <:+: s :=
  fun h' => h (List.infix_cons h')

theorem replaceScan_free_append (f r s y : Str) (hs : ¬ f <:+: s)
    (hy : ∀ k, 0 < k → k < f.length → ¬ f.drop k <+: y) :
    replaceScan f r 0 (s ++ y) = s ++ replaceScan f r 0 y := by
  induction s with
  | nil => rfl
  | cons c s ih =>
    have hno : ¬ f <+: c :: (s ++ y) :=
      no_match_across f (c :: s) y hs (List.cons_ne_nil c s) hy
    rw [List.cons_append, replaceScan_skip f r c (s ++ y) hno, ih (free_tail f c s hs),
      List.cons_append]

theorem drop_not_prefix_nil (f : Str) :
    ∀ k, 0 < k → k < f.length → ¬ f.drop k <+: [] := by
  intro k _ hk h
  have h0 : f.drop k = [] := List.prefix_nil.mp h
  have hl : (f.drop k).length = 0 := by rw [h0]; rfl
  rw [List.length_drop] at hl
  omega

theorem replaceScan_free (f r s : Str) (hs : ¬ f <:+: s) : replaceScan f r 0 s = s := by
  have h := replaceScan_free_append f r s [] hs (drop_not_prefix_nil f)
  simpa [replaceScan] using h

theorem token_ends_apart (tail : Str) :
    ∀ k, 0 < k → k < DEVICE.length → ¬ DEVICE.drop k <+: DEVICE ++ tail := by
  intro k h0 hk
  have h8 : k < 8 := hk
  interval_cases k <;> simp [DEVICE_eq]

/-- Reading a text free of the token and then the token: the text is kept,
the token replaced. -/
theorem replaceScan_free_token (r s tail : Str) (hs : ¬ DEVICE <:+: s) :
    replaceScan DEVICE r 0 (s ++ DEVICE ++ tail)
      = s ++ r ++ replaceScan DEVICE r 0 tail := by
  rw [List.append_assoc, replaceScan_free_append DEVICE r s (DEVICE ++ tail) hs
    (token_ends_apart tail), replaceScan_match DEVICE r tail (by decide),
    List.append_assoc]

theorem glue_cons (sep : Str) (c : Char) (s0 : Str) (segs : List Str) :
    glue sep (c :: s0) segs = c :: glue sep s0 segs := by
  cases segs <;> simp [glue]

theorem glue_append (sep a b : Str) (segs : List Str) :
    glue sep (a ++ b) segs = a ++ glue sep b segs := by
  cases segs <;> simp [glue]

/-- Every text splits at the occurrences of the token into pieces that are
free of it. -/
theorem exists_glue (mask : Str) :
    ∃ s0 segs, ¬ DEVICE <:+: s0 ∧ (∀ s ∈ segs, ¬ DEVICE <:+: s) ∧
      mask = glue DEVICE s0 segs := by
  induction mask with
  | nil => exact ⟨[], [], by decide, by simp, rfl⟩
  | cons c cs ih =>
    obtain ⟨s0, segs, h0, hsegs, hcs⟩ := ih
    by_cases hin : DEVICE <:+: c :: s0
    · have hpre : DEVICE <+: c :: s0 := by
        rcases List.infix_cons_iff.mp hin with h | h
        · exact h
        · exact absurd h h0
      obtain ⟨u, hu⟩ := hpre
      have hsuf : u <:+ s0 := by
        rw [DEVICE_eq] at hu
        simp only [List.cons_append, List.cons.injEq] at hu
        exact ⟨['D', 'E', 'V', 'I', 'C', 'E', ']'], by simpa using hu.2⟩
      refine ⟨[], u :: segs, by decide, ?_, ?_⟩
      · intro s hs
        rcases List.mem_cons.mp hs with rfl | hs
        · exact fun h => h0 (h.trans hsuf.isInfix)
        · exact hsegs s hs
      · rw [hcs, ← glue_cons, ← hu, glue_append]
        simp [glue]
    · exact ⟨c :: s0, segs, hin, hsegs, by rw [hcs, glue_cons]⟩

/-- The expansion of a text given by its token-free pieces. -/
theorem replaceScan_glue (r s0 : Str) (segs : List Str) (h0 : ¬ DEVICE <:+: s0)
    (hsegs : ∀ s ∈ segs, ¬ DEVICE <:+: s) :
    replaceScan DEVICE r 0 (glue DEVICE s0 segs) = glue r s0 segs := by
  induction segs generalizing s0 with
  | nil => exact replaceScan_free DEVICE r s0 h0
  | cons s rest ih =>
    have hs : ¬ DEVICE <:+: s := hsegs s (List.mem_cons_self s rest)
    have hrest : ∀ x ∈ rest, ¬ DEVICE <:+: x := fun x hx => hsegs x (List.mem_cons_of_mem s hx)
    simp only [glue]
    rw [replaceScan_free_token r s0 _ h0, ih s hs hrest]

theorem occurrences_free (f s : Str) (hf : f ≠ []) (hs : ¬ f <:+: s) :
    occurrences f s = 0 := by
  induction s with
  | nil => simp [occurrences, hf]
  | cons c s ih =>
    have hp : ¬ f <+: c :: s := fun h => hs h.isInfix
    simp [occurrences, hp, ih (free_tail f c s hs)]

theorem occurrences_pos (f s : Str) (hf : f ≠ []) (hs : f <:+: s) :
    0 < occurrences f s := by
  induction s with
  | nil => exact absurd (List.infix_nil.mp hs) hf
  | cons c s ih =>
    rcases List.infix_cons_iff.mp hs with h | h
    · simp [occurrences, h]
    · have := ih h
      simp only [occurrences]
      omega

theorem occurrences_free_append (f s y : Str) (hs : ¬ f <:+: s)
    (hy : ∀ k, 0 < k → k < f.length → ¬ f.drop k <+: y) :
    occurrences f (s ++ y) = occurrences f y := by
  induction s with
  | nil => rfl
  | cons c s ih =>
    have hno : ¬ f <+: c :: (s ++ y) :=
      no_match_across f (c :: s) y hs (List.cons_ne_nil c s) hy
    simp [occurrences, hno, ih (free_tail f c s hs)]

theorem occurrences_token (tail : Str) :
    occurrences DEVICE (DEVICE ++ tail) = 1 + occurrences DEVICE tail := by
  simp [DEVICE_eq, occurrences]

theorem occurrences_append_ge (f a b : Str) (hf : f ≠ []) :
    occurrences f a + occurrences f b ≤ occurrences f (a ++ b) := by
  induction a with
  | nil => simp [occurrences, hf]
  | cons c a ih =>
    have e1 : occurrences f (c :: a ++ b)
        = (if f <+: c :: (a ++ b) then 1 else 0) + occurrences f (a ++ b) := rfl
    have e2 : occurrences f (c :: a) = (if f <+: c :: a then 1 else 0) + occurrences f a := rfl
    rw [e1, e2]
    by_cases hp : f <+: c :: a
    · have hp' : f <+: c :: (a ++ b) := hp.trans (List.prefix_append (c :: a) b)
      rw [if_pos hp, if_pos hp']
      omega
    · rw [if_neg hp]
      split <;> omega

theorem occurrences_glue (s0 : Str) (segs : List Str) (h0 : ¬ DEVICE <:+: s0)
    (hsegs : ∀ s ∈ segs, ¬ DEVICE <:+: s) :
    occurrences DEVICE (glue DEVICE s0 segs) = segs.length := by
  induction segs generalizing s0 with
  | nil => exact occurrences_free DEVICE s0 (by decide) h0
  | cons s rest ih =>
    have hs : ¬ DEVICE <:+: s := hsegs s (List.mem_cons_self s rest)
    have hrest : ∀ x ∈ rest, ¬ DEVICE <:+: x := fun x hx => hsegs x (List.mem_cons_of_mem s hx)
    simp only [glue]
    rw [List.append_assoc, occurrences_free_append DEVICE s0 _ h0 (token_ends_apart _),
      occurrences_token, ih s hs hrest, List.length_cons]
    omega

theorem replaceScan_plain (r x tail : Str) (hx : '[' ∉ x) :
    replaceScan DEVICE r 0 (x ++ tail) = x ++ replaceScan DEVICE r 0 tail := by
  induction x with
  | nil => rfl
  | cons c x ih =>
    have hc : c ≠ '[' := fun h => hx (by simp [h])
    have hno : ¬ DEVICE <+: c :: (x ++ tail) := by
      rw [DEVICE_eq]
      intro h
      rw [List.cons_prefix_cons] at h
      exact hc h.1.symm
    rw [List.cons_append, replaceScan_skip _ _ _ _ hno,
      ih (fun h => hx (List.mem_cons_of_mem c h)), List.cons_append]

theorem model_ends_apart (m tail : Str) (hr : ']' ∉ m) (hm : ¬ m <:+: DEVICE) :
    ∀ k, 0 < k → k < DEVICE.length → ¬ DEVICE.drop k <+: m ++ tail := by
  intro k h0 hk hp
  have h8 : k < 8 := hk
  have hx : DEVICE.drop k = (DEVICE.drop k).dropLast ++ [']'] ∧
      (DEVICE.drop k).dropLast <:+: DEVICE := by
    interval_cases k <;> decide
  rw [hx.1] at hp
  rcases List.prefix_or_prefix_of_prefix hp (List.prefix_append m tail) with h | h
  · exact hr (h.subset (by simp))
  · rcases List.prefix_concat_iff.mp h with h | h
    · apply hr
      rw [h]
      simp
    · exact hm (h.isInfix.trans hx.2)

/-- A text glued with a bracket-free model that is no part of the token
holds no occurrence of the token: expanding it changes nothing. -/
theorem replaceScan_glue_fixed (m s0 : Str) (segs : List Str) (hl : '[' ∉ m)
    (hr : ']' ∉ m) (hm : ¬ m <:+: DEVICE) (h0 : ¬ DEVICE <:+: s0)
    (hsegs : ∀ s ∈ segs, ¬ DEVICE <:+: s) :
    replaceScan DEVICE m 0 (glue m s0 segs) = glue m s0 segs := by
  induction segs generalizing s0 with
  | nil => exact replaceScan_free DEVICE m s0 h0
  | cons s rest ih =>
    have hs : ¬ DEVICE <:+: s := hsegs s (List.mem_cons_self s rest)
    have hrest : ∀ x ∈ rest, ¬ DEVICE <:+: x := fun x hx => hsegs x (List.mem_cons_of_mem s hx)
    simp only [glue]
    rw [List.append_assoc, replaceScan_free_append DEVICE m s0 _ h0
      (model_ends_apart m _ hr hm), replaceScan_plain m m _ hl, ih s hs hrest]

/-- C5. `OTA_genUrl(mask, deviceModel)` is the mask with every occurrence
of the token `[DEVICE]` replaced by the device model: every mask is
`s0 [DEVICE] s1 ... [DEVICE] sn` with token-free pieces, `n` being its
number of occurrences of the token, and whenever a mask is cut in this way
the result is `s0 deviceModel s1 ... deviceModel sn`; so in a mask with two
occurrences both are replaced. -/
theorem C5_genUrl_replaces_every_occurrence (mask deviceModel : Str) :
    (∃ s0 segs, ¬ DEVICE <:+: s0 ∧ (∀ s ∈ segs, ¬ DEVICE <:+: s) ∧
      mask = glue DEVICE s0 segs ∧ occurrences DEVICE mask = segs.length ∧
      OTA_genUrl mask deviceModel = glue deviceModel s0 segs) ∧
    (∀ s0 segs, ¬ DEVICE <:+: s0 → (∀ s ∈ segs, ¬ DEVICE <:+: s) →
      mask = glue DEVICE s0 segs →
      OTA_genUrl mask deviceModel = glue deviceModel s0 segs) ∧
    (∀ a b c, ¬ DEVICE <:+: a → ¬ DEVICE <:+: b → ¬ DEVICE <:+: c →
      mask = a ++ DEVICE ++ b ++ DEVICE ++ c →
      occurrences DEVICE mask = 2 ∧
      OTA_genUrl mask deviceModel = a ++ deviceModel ++ b ++ deviceModel ++ c) := by
  have fwd : ∀ s0 segs, ¬ DEVICE <:+: s0 → (∀ s ∈ segs, ¬ DEVICE <:+: s) →
      mask = glue DEVICE s0 segs →
      OTA_genUrl mask deviceModel = glue deviceModel s0 segs := by
    intro s0 segs h0 hsegs hmask
    rw [hmask]
    exact replaceScan_glue deviceModel s0 segs h0 hsegs
  refine ⟨?_, fwd, ?_⟩
  · obtain ⟨s0, segs, h0, hsegs, hmask⟩ := exists_glue mask
    refine ⟨s0, segs, h0, hsegs, hmask, ?_, fwd s0 segs h0 hsegs hmask⟩
    rw [hmask]
    exact occurrences_glue s0 segs h0 hsegs
  · intro a b c ha hb hc hmask
    have hsegs : ∀ s ∈ [b, c], ¬ DEVICE <:+: s := by
      intro s hs
      simp only [List.mem_cons, List.mem_singleton, List.not_mem_nil, or_false] at hs
      rcases hs with rfl | rfl
      · exact hb
      · exact hc
    have hg : mask = glue DEVICE a [b, c] := by
      rw [hmask]
      simp [glue]
    constructor
    · rw [hg]
      exact occurrences_glue a [b, c] ha hsegs
    · rw [fwd a [b, c] ha hsegs hg]
      simp [glue]

/-- C6, as stated, fails: expanding `[DEV[DEVICE]ICE]` with the empty
model gives `[DEVICE]`, and expanding that again gives the empty text. -/
theorem C6_genUrl_not_idempotent :
    ¬ (∀ t m : Str, OTA_genUrl (OTA_genUrl t m) m = OTA_genUrl t m) := by
  intro h
  exact absurd (h "[DEV[DEVICE]ICE]".toList []) (by decide)

/-- C6, amended. For every mask `t` and every device model `m` that holds
neither `[` nor `]` and is not a contiguous part of the token (so is not
empty), expanding twice is the same as expanding once:
`OTA_genUrl(OTA_genUrl(t, m), m) = OTA_genUrl(t, m)`. -/
theorem C6_genUrl_idempotent (t m : Str) (hl : '[' ∉ m) (hr : ']' ∉ m)
    (hm : ¬ m <:+: DEVICE) :
    OTA_genUrl (OTA_genUrl t m) m = OTA_genUrl t m := by
  obtain ⟨s0, segs, h0, hsegs, ht⟩ := exists_glue t
  have e : OTA_genUrl t m = glue m s0 segs := by
    rw [ht]
    exact replaceScan_glue m s0 segs h0 hsegs
  rw [e]
  exact replaceScan_glue_fixed m s0 segs hl hr hm h0 hsegs

/-- C6, amended, instantiated: the mask `t/[DEVICE]/[DEVICE]` and the
model `626`. -/
theorem C6_genUrl_idempotent_witness :
    OTA_genUrl (OTA_genUrl "t/[DEVICE]/[DEVICE]".toList "626".toList) "626".toList
      = OTA_genUrl "t/[DEVICE]/[DEVICE]".toList "626".toList :=
  C6_genUrl_idempotent "t/[DEVICE]/[DEVICE]".toList "626".toList (by decide) (by decide)
    (by decide)

/-- C7. A mask with no occurrence of the token `[DEVICE]` is returned
unchanged by `OTA_genUrl`, whatever the device model. -/
theorem C7_genUrl_no_token (mask deviceModel : Str) (h : ¬ DEVICE <:+: mask) :
    OTA_genUrl mask deviceModel = mask :=
  replaceScan_free DEVICE deviceModel mask h

/-- C7, instantiated: the mask `http://x/v` and the model `626`. -/
theorem C7_genUrl_no_token_witness :
    OTA_genUrl "http://x/v".toList "626".toList = "http://x/v".toList :=
  C7_genUrl_no_token "http://x/v".toList "626".toList (by decide)

/-- C8. For a mask `pre ++ "[DEVICE]" ++ post` that holds exactly one
occurrence of the token, `OTA_genUrl` gives `pre ++ m ++ post`: one textual
substitution. -/
theorem C8_genUrl_single_token (pre post m : Str)
    (h : occurrences DEVICE (pre ++ DEVICE ++ post) = 1) :
    OTA_genUrl (pre ++ DEVICE ++ post) m = pre ++ m ++ post := by
  have hD : DEVICE ≠ [] := by decide
  have h1 := occurrences_append_ge DEVICE pre (DEVICE ++ post) hD
  have h2 := occurrences_token post
  rw [List.append_assoc] at h
  have hpre : ¬ DEVICE <:+: pre := by
    intro hin
    have := occurrences_pos DEVICE pre hD hin
    omega
  have hpost : ¬ DEVICE <:+: post := by
    intro hin
    have := occurrences_pos DEVICE post hD hin
    omega
  show replaceScan DEVICE m 0 (pre ++ DEVICE ++ post) = pre ++ m ++ post
  rw [replaceScan_free_token m pre post hpre, replaceScan_free DEVICE m post hpost]

/-- C8, instantiated: the mask `t/[DEVICE].z` and the model `626`. -/
theorem C8_genUrl_single_token_witness :
    OTA_genUrl ("t/".toList ++ DEVICE ++ ".z".toList) "626".toList
      = "t/".toList ++ "626".toList ++ ".z".toList :=
  C8_genUrl_single_token "t/".toList ".z".toList "626".toList (by decide)

/-! ## Connectivity gates -/

theorem isNewVersion_trace (cfg : Config) (env : Env) (t : Trace) :
    (OTA_isNewVersion cfg env t).2 =
      if env.pbNetwork t connect then
        t ++ [Event.pbNetwork connect true, Event.webGet cfg.OTA_VERSION]
      else t ++ [Event.pbNetwork connect false] := by
  cases h : env.pbNetwork t connect <;> simp [OTA_isNewVersion, pbNetwork, webGet, h]

theorem downloadExists_trace (cfg : Config) (env : Env) (url : Str) (t : Trace) :
    (OTA_downloadExists cfg env url t).2 =
      if env.pbNetwork t connect then
        t ++ [Event.pbNetwork connect true, Event.webGet url]
      else t ++ [Event.pbNetwork connect false] := by
  cases h : env.pbNetwork t connect <;> simp [OTA_downloadExists, pbNetwork, webGet, h]

theorem getLinkedDevice_trace (cfg : Config) (env : Env) (deviceModel : Str) (t : Trace) :
    (OTA_getLinkedDevice cfg env deviceModel t).2 =
      if env.pbNetwork t connect then
        t ++ [Event.pbNetwork connect true,
          Event.webGet (lString16_replace cfg.OTA_LINK_MASK DEVICE deviceModel)]
      else t ++ [Event.pbNetwork connect false] := by
  cases h : env.pbNetwork t connect
  · simp [OTA_getLinkedDevice, pbNetwork, webGet, h]
  · simp only [OTA_getLinkedDevice, pbNetwork, webGet, h, Bool.not_true, Bool.false_eq_true,
      if_false, if_true]
    split <;> simp

/-- In a call that records one connectivity check and, after a successful
one, one fetch, the fetch comes after a successful check. -/
theorem fetch_after_connect (b : Bool) (url : Str) (t out : Trace)
    (hout : out = if b then t ++ [Event.pbNetwork connect true, Event.webGet url]
      else t ++ [Event.pbNetwork connect false])
    (pre post : Trace) (u : Str) (h : out = t ++ pre ++ Event.webGet u :: post) :
    Event.pbNetwork connect true ∈ pre := by
  rw [hout, List.append_assoc] at h
  cases b with
  | false =>
    have h' := List.append_cancel_left h
    rcases pre with _ | ⟨e, pre⟩
    · simp at h'
    · simp at h'
  | true =>
    have h' := List.append_cancel_left h
    rcases pre with _ | ⟨e, _ | ⟨e2, pre⟩⟩
    · simp at h'
    · simp at h'
      simp [← h'.1]
    · simp at h'

/-- C9. The three network operations fail closed: when the connectivity
check `pbNetwork("connect")` returns false, `OTA_isNewVersion` and
`OTA_downloadExists` return false and `OTA_getLinkedDevice` returns the
empty model, the only thing each call does being the failed check, so no
fetch is issued; and in every call of the three, each fetch comes after a
connectivity check of the same call that returned true. -/
theorem C9_fail_closed (cfg : Config) (env : Env) (url deviceModel : Str) (t : Trace) :
    (env.pbNetwork t connect = false →
      OTA_isNewVersion cfg env t = (false, t ++ [Event.pbNetwork connect false]) ∧
      OTA_downloadExists cfg env url t = (false, t ++ [Event.pbNetwork connect false]) ∧
      OTA_getLinkedDevice cfg env deviceModel t
        = ([], t ++ [Event.pbNetwork connect false]) ∧
      fetches ((OTA_isNewVersion cfg env t).2.drop t.length) = [] ∧
      fetches ((OTA_downloadExists cfg env url t).2.drop t.length) = [] ∧
      fetches ((OTA_getLinkedDevice cfg env deviceModel t).2.drop t.length) = []) ∧
    (∀ pre post u,
      ((OTA_isNewVersion cfg env t).2 = t ++ pre ++ Event.webGet u :: post ∨
       (OTA_downloadExists cfg env url t).2 = t ++ pre ++ Event.webGet u :: post ∨
       (OTA_getLinkedDevice cfg env deviceModel t).2
         = t ++ pre ++ Event.webGet u :: post) →
      Event.pbNetwork connect true ∈ pre) := by
  constructor
  · intro h
    simp [OTA_isNewVersion, OTA_downloadExists, OTA_getLinkedDevice, pbNetwork, h, fetches]
  · intro pre post u h
    rcases h with h | h | h
    · exact fetch_after_connect _ _ t _ (isNewVersion_trace cfg env t) pre post u h
    · exact fetch_after_connect _ _ t _ (downloadExists_trace cfg env url t) pre post u h
    · exact fetch_after_connect _ _ t _ (getLinkedDevice_trace cfg env deviceModel t)
        pre post u h

/-- C9, instantiated on a network that is down. -/
theorem C9_fail_closed_witness :
    (envDown.pbNetwork [] connect = false →
      OTA_isNewVersion cfgSample envDown [] = (false, [] ++ [Event.pbNetwork connect false]) ∧
      OTA_downloadExists cfgSample envDown "u".toList []
        = (false, [] ++ [Event.pbNetwork connect false]) ∧
      OTA_getLinkedDevice cfgSample envDown "626".toList []
        = ([], [] ++ [Event.pbNetwork connect false]) ∧
      fetches ((OTA_isNewVersion cfgSample envDown []).2.drop ([] : Trace).length) = [] ∧
      fetches ((OTA_downloadExists cfgSample envDown "u".toList []).2.drop
        ([] : Trace).length) = [] ∧
      fetches ((OTA_getLinkedDevice cfgSample envDown "626".toList []).2.drop
        ([] : Trace).length) = []) ∧
    (∀ pre post u,
      ((OTA_isNewVersion cfgSample envDown []).2 = [] ++ pre ++ Event.webGet u :: post ∨
       (OTA_downloadExists cfgSample envDown "u".toList []).2
         = [] ++ pre ++ Event.webGet u :: post ∨
       (OTA_getLinkedDevice cfgSample envDown "626".toList []).2
         = [] ++ pre ++ Event.webGet u :: post) →
      Event.pbNetwork connect true ∈ pre) :=
  C9_fail_closed cfgSample envDown "u".toList "626".toList []

/-! ## The orchestrator -/

/-- C10. Scenario 1: when the first connectivity check of `OTA_update`
fails, the run ends with the message "Couldn't connect to the network!",
returns false, and has issued no fetch and no device-model lookup: it
opened the progress bar, made the failed check and showed the message. -/
theorem C10_update_no_network (cfg : Config) (env : Env) (t : Trace)
    (h : env.pbNetwork (t ++ [Event.OpenProgressbar Icon.ICON_INFORMATION
      (env.tr txtTitle) (env.tr txtCheckingNetwork) 0]) connect = false) :
    (OTA_update cfg env t).1 = false ∧
    (OTA_update cfg env t).2 = t ++
      [Event.OpenProgressbar Icon.ICON_INFORMATION (env.tr txtTitle)
         (env.tr txtCheckingNetwork) 0,
       Event.pbNetwork connect false,
       Event.Message Icon.ICON_ERROR CoolReader (env.tr txtNoNetwork) 2000] ∧
    fetches ((OTA_update cfg env t).2.drop t.length) = [] ∧
    Event.getPbModelNumber ∉ (OTA_update cfg env t).2.drop t.length := by
  have e : OTA_update cfg env t = (false, t ++
      [Event.OpenProgressbar Icon.ICON_INFORMATION (env.tr txtTitle)
         (env.tr txtCheckingNetwork) 0,
       Event.pbNetwork connect false,
       Event.Message Icon.ICON_ERROR CoolReader (env.tr txtNoNetwork) 2000]) := by
    simp [OTA_update, pbNetwork, h]
  rw [e]
  simp [fetches]

/-- C10, instantiated on a network that is down. -/
theorem C10_update_no_network_witness :
    (OTA_update cfgSample envDown []).1 = false ∧
    (OTA_update cfgSample envDown []).2 = [] ++
      [Event.OpenProgressbar Icon.ICON_INFORMATION (envDown.tr txtTitle)
         (envDown.tr txtCheckingNetwork) 0,
       Event.pbNetwork connect false,
       Event.Message Icon.ICON_ERROR CoolReader (envDown.tr txtNoNetwork) 2000] ∧
    fetches ((OTA_update cfgSample envDown []).2.drop ([] : Trace).length) = [] ∧
    Event.getPbModelNumber ∉ (OTA_update cfgSample envDown []).2.drop ([] : Trace).length :=
  C10_update_no_network cfgSample envDown [] rfl

/-! ## The stages of a run -/

theorem OTA_update_stages (cfg : Config) (env : Env) (t : Trace) :
    OTA_update cfg env t =
      if !(firstCheck env t).1 then
        (false, (firstCheck env t).2 ++
          [Event.Message Icon.ICON_ERROR CoolReader (env.tr txtNoNetwork) 2000])
      else if !(versionStage cfg env t).1 then
        (false, (versionStage cfg env t).2 ++ [Event.CloseProgressbar,
          Event.Message Icon.ICON_INFORMATION CoolReader (env.tr txtLatest) 2000])
      else if (primaryStage cfg env t).1 then
        OTA_updateFrom (OTA_genUrl cfg.OTA_URL_MASK env.getPbModelNumber)
          (OTA_progress (env.tr txtDownloading) 50 env.getPbModelNumber
            (primaryStage cfg env t).2)
      else if (linkStage cfg env t).1.isEmpty then
        (false, (linkStage cfg env t).2 ++ [Event.CloseProgressbar,
          Event.Message Icon.ICON_WARNING CoolReader
            (env.tr txtNotAvailable ++ env.getPbModelNumber) 5000])
      else if (linkedStage cfg env t).1 then
        OTA_updateFrom (OTA_genUrl cfg.OTA_URL_MASK (linkStage cfg env t).1)
          (OTA_progress (env.tr txtDownloading) 50 (linkStage cfg env t).1
            (linkedStage cfg env t).2)
      else
        (false, (linkedStage cfg env t).2 ++ [Event.CloseProgressbar,
          Event.Message Icon.ICON_ERROR CoolReader (env.tr txtFailed) 2000]) := rfl

theorem firstCheck_fst (env : Env) (t : Trace) :
    (firstCheck env t).1 = env.pbNetwork (atStart env t) connect := rfl

theorem firstCheck_snd (env : Env) (t : Trace) :
    (firstCheck env t).2 = t ++
      [Event.OpenProgressbar Icon.ICON_INFORMATION (env.tr txtTitle)
        (env.tr txtCheckingNetwork) 0,
       Event.pbNetwork connect (env.pbNetwork (atStart env t) connect)] := by
  simp [firstCheck, pbNetwork, atStart]

theorem versionStart_eq (env : Env) (t : Trace) :
    versionStart env t = (firstCheck env t).2 ++
      [Event.UpdateProgressbar (lString16_replace (env.tr txtCheckingUpdates) DEVICE []) 10] :=
  rfl

theorem net_trace_eq (b : Bool) (url : Str) (s : Trace) :
    (if b = true then s ++ [Event.pbNetwork connect true, Event.webGet url]
      else s ++ [Event.pbNetwork connect false]) = s ++ netEvents b url := by
  cases b <;> simp [netEvents]

theorem versionStage_snd (cfg : Config) (env : Env) (t : Trace) :
    (versionStage cfg env t).2 = versionStart env t ++
      netEvents (env.pbNetwork (versionStart env t) connect) cfg.OTA_VERSION := by
  rw [versionStage, isNewVersion_trace, net_trace_eq]

theorem primaryStart_eq (cfg : Config) (env : Env) (t : Trace) :
    primaryStart cfg env t = (versionStage cfg env t).2 ++
      [Event.getPbModelNumber,
       Event.UpdateProgressbar
         (lString16_replace (env.tr txtSearchingPackage) DEVICE env.getPbModelNumber) 20] := by
  simp [primaryStart, OTA_progress]

theorem primaryStage_snd (cfg : Config) (env : Env) (t : Trace) :
    (primaryStage cfg env t).2 = primaryStart cfg env t ++
      netEvents (env.pbNetwork (primaryStart cfg env t) connect)
        (OTA_genUrl cfg.OTA_URL_MASK_TEST env.getPbModelNumber) := by
  rw [primaryStage, downloadExists_trace, net_trace_eq]

theorem linkStart_eq (cfg : Config) (env : Env) (t : Trace) :
    linkStart cfg env t = (primaryStage cfg env t).2 ++
      [Event.UpdateProgressbar
        (lString16_replace (env.tr txtSearchingTwin) DEVICE env.getPbModelNumber) 30] := rfl

theorem linkStage_snd (cfg : Config) (env : Env) (t : Trace) :
    (linkStage cfg env t).2 = linkStart cfg env t ++
      netEvents (env.pbNetwork (linkStart cfg env t) connect)
        (lString16_replace cfg.OTA_LINK_MASK DEVICE env.getPbModelNumber) := by
  rw [linkStage, getLinkedDevice_trace, net_trace_eq]

theorem linkedStart_eq (cfg : Config) (env : Env) (t : Trace) :
    linkedStart cfg env t = (linkStage cfg env t).2 ++
      [Event.UpdateProgressbar
        (lString16_replace (env.tr txtSearchingPackage) DEVICE (linkStage cfg env t).1) 40] :=
  rfl

theorem linkedStage_snd (cfg : Config) (env : Env) (t : Trace) :
    (linkedStage cfg env t).2 = linkedStart cfg env t ++
      netEvents (env.pbNetwork (linkedStart cfg env t) connect)
        (OTA_genUrl cfg.OTA_URL_MASK_TEST (linkStage cfg env t).1) := by
  rw [linkedStage, downloadExists_trace, net_trace_eq]

/-- A run returns false and adds the events written out by `script` along
the decisions it met. -/
theorem OTA_update_script (cfg : Config) (env : Env) (t : Trace) :
    OTA_update cfg env t = (false, t ++ script cfg env
      (env.pbNetwork (atStart env t) connect)
      (env.pbNetwork (versionStart env t) connect) (versionStage cfg env t).1
      (env.pbNetwork (primaryStart cfg env t) connect) (primaryStage cfg env t).1
      (env.pbNetwork (linkStart cfg env t) connect) (linkStage cfg env t).1
      (env.pbNetwork (linkedStart cfg env t) connect) (linkedStage cfg env t).1) := by
  rw [OTA_update_stages, firstCheck_fst]
  unfold script
  split
  · simp [firstCheck_snd]
  · split
    · simp [versionStage_snd, versionStart_eq, firstCheck_snd, *]
    · split
      · simp [OTA_updateFrom, OTA_progress, primaryStage_snd, primaryStart_eq,
          versionStage_snd, versionStart_eq, firstCheck_snd, *]
      · split
        · simp [linkStage_snd, linkStart_eq, primaryStage_snd, primaryStart_eq,
            versionStage_snd, versionStart_eq, firstCheck_snd, *]
        · split
          · simp [OTA_updateFrom, OTA_progress, linkedStage_snd, linkedStart_eq,
              linkStage_snd, linkStart_eq, primaryStage_snd, primaryStart_eq,
              versionStage_snd, versionStart_eq, firstCheck_snd, *]
          · simp [linkedStage_snd, linkedStart_eq,
              linkStage_snd, linkStart_eq, primaryStage_snd, primaryStart_eq,
              versionStage_snd, versionStart_eq, firstCheck_snd, *]

theorem run_trace (cfg : Config) (env : Env) (t : Trace) :
    (OTA_update cfg env t).2 = t ++ runEvents cfg env t := by
  rw [runEvents, OTA_update_script]
  simp

theorem runEvents_eq (cfg : Config) (env : Env) (t : Trace) :
    runEvents cfg env t = script cfg env
      (env.pbNetwork (atStart env t) connect)
      (env.pbNetwork (versionStart env t) connect) (versionStage cfg env t).1
      (env.pbNetwork (primaryStart cfg env t) connect) (primaryStage cfg env t).1
      (env.pbNetwork (linkStart cfg env t) connect) (linkStage cfg env t).1
      (env.pbNetwork (linkedStart cfg env t) connect) (linkedStage cfg env t).1 := by
  rw [runEvents, OTA_update_script]
  simp

theorem isNewVersion_connected (cfg : Config) (env : Env) (s : Trace)
    (h : (OTA_isNewVersion cfg env s).1 = true) : env.pbNetwork s connect = true := by
  cases hc : env.pbNetwork s connect with
  | true => rfl
  | false => simp [OTA_isNewVersion, pbNetwork, hc] at h

theorem downloadExists_connected (cfg : Config) (env : Env) (url : Str) (s : Trace)
    (h : (OTA_downloadExists cfg env url s).1 = true) : env.pbNetwork s connect = true := by
  cases hc : env.pbNetwork s connect with
  | true => rfl
  | false => simp [OTA_downloadExists, pbNetwork, hc] at h

theorem getLinkedDevice_connected (cfg : Config) (env : Env) (m : Str) (s : Trace)
    (h : (OTA_getLinkedDevice cfg env m s).1 ≠ []) : env.pbNetwork s connect = true := by
  cases hc : env.pbNetwork s connect with
  | true => rfl
  | false => simp [OTA_getLinkedDevice, pbNetwork, hc] at h

theorem isNewVersion_fst (cfg : Config) (env : Env) (s : Trace)
    (hc : env.pbNetwork s connect = true) :
    (OTA_isNewVersion cfg env s).1 =
      (decide (5 < (env.webGet (s ++ [Event.pbNetwork connect true]) cfg.OTA_VERSION).length) &&
       decide ((env.webGet (s ++ [Event.pbNetwork connect true]) cfg.OTA_VERSION).length
         ≤ cfg.OTA_VERSION_MAX_LENGTH) &&
       decide (env.webGet (s ++ [Event.pbNetwork connect true]) cfg.OTA_VERSION
         ≠ cfg.CR_PB_VERSION)) := by
  have hne : ∀ V : Str, strcmp cfg.CR_PB_VERSION V ≠ 0 ↔ V ≠ cfg.CR_PB_VERSION := by
    intro V
    rw [Ne, strcmp_eq_zero_iff]
    exact ⟨fun h e => h e.symm, fun h e => h e.symm⟩
  simp [OTA_isNewVersion, pbNetwork, webGet, hc, strlen, hne]

theorem downloadExists_fst (cfg : Config) (env : Env) (url : Str) (s : Trace)
    (hc : env.pbNetwork s connect = true) :
    (OTA_downloadExists cfg env url s).1 =
      decide (env.webGet (s ++ [Event.pbNetwork connect true]) url = cfg.OTA_EXISTS_STR) := by
  simp only [OTA_downloadExists, pbNetwork, webGet, hc, strlen, Bool.not_true,
    Bool.false_eq_true, if_false, strcmp_eq_zero_iff]
  by_cases h : env.webGet (s ++ [Event.pbNetwork connect true]) url = cfg.OTA_EXISTS_STR
  · simp [h]
  · have h' : ¬ cfg.OTA_EXISTS_STR = env.webGet (s ++ [Event.pbNetwork connect true]) url :=
      fun e => h e.symm
    simp [h, h']

theorem fetches_append (a b : Trace) : fetches (a ++ b) = fetches a ++ fetches b := by
  induction a with
  | nil => rfl
  | cons e a ih => cases e <;> simp [fetches, ih]

theorem fetches_netEvents (b : Bool) (url : Str) :
    fetches (netEvents b url) = if b then [url] else [] := by
  cases b <;> simp [netEvents, fetches]

theorem messages_append (a b : Trace) : messages (a ++ b) = messages a ++ messages b := by
  simp [messages]

theorem messages_netEvents (b : Bool) (url : Str) : messages (netEvents b url) = [] := by
  cases b <;> simp [netEvents, messages, Event.isMessage]

theorem filter_isMessage_netEvents (b : Bool) (url : Str) :
    List.filter Event.isMessage (netEvents b url) = [] := by
  cases b <;> simp [netEvents, Event.isMessage]

theorem getPbModelNumber_not_mem_netEvents (b : Bool) (url : Str) :
    Event.getPbModelNumber ∉ netEvents b url := by
  cases b <;> simp [netEvents]

theorem last_of_two (a b : Trace) (c d m n : Event) (h : a ++ [c, m] = b ++ [d, n]) :
    m = n := by
  have h' : (a ++ [c]) ++ [m] = (b ++ [d]) ++ [n] := by simpa using h
  have := congrArg List.getLast? h'
  simpa using this

/-- C11. Scenario 2: when connectivity succeeds and the fetched version is
the current version `CR_PB_VERSION`, `OTA_update` ends with the message "You
have the latest version." and returns false; the version query is the only
fetch, and there is no device-model lookup, no probe and no link lookup. -/
theorem C11_update_up_to_date (cfg : Config) (env : Env) (t : Trace)
    (h0 : env.pbNetwork (atStart env t) connect = true)
    (h1 : env.pbNetwork (versionStart env t) connect = true)
    (hV : env.webGet (versionStart env t ++ [Event.pbNetwork connect true]) cfg.OTA_VERSION
      = cfg.CR_PB_VERSION) :
    (OTA_update cfg env t).1 = false ∧
    runEvents cfg env t =
      [Event.OpenProgressbar Icon.ICON_INFORMATION (env.tr txtTitle)
         (env.tr txtCheckingNetwork) 0,
       Event.pbNetwork connect true,
       Event.UpdateProgressbar (lString16_replace (env.tr txtCheckingUpdates) DEVICE []) 10,
       Event.pbNetwork connect true,
       Event.webGet cfg.OTA_VERSION,
       Event.CloseProgressbar,
       Event.Message Icon.ICON_INFORMATION CoolReader (env.tr txtLatest) 2000] ∧
    fetches (runEvents cfg env t) = [cfg.OTA_VERSION] ∧
    Event.getPbModelNumber ∉ runEvents cfg env t := by
  have hver : (versionStage cfg env t).1 = false := by
    rw [versionStage, isNewVersion_fst cfg env _ h1, hV]
    simp
  have e : runEvents cfg env t =
      [Event.OpenProgressbar Icon.ICON_INFORMATION (env.tr txtTitle)
         (env.tr txtCheckingNetwork) 0,
       Event.pbNetwork connect true,
       Event.UpdateProgressbar (lString16_replace (env.tr txtCheckingUpdates) DEVICE []) 10,
       Event.pbNetwork connect true,
       Event.webGet cfg.OTA_VERSION,
       Event.CloseProgressbar,
       Event.Message Icon.ICON_INFORMATION CoolReader (env.tr txtLatest) 2000] := by
    rw [runEvents_eq]
    simp [script, netEvents, h0, h1, hver]
  refine ⟨by rw [OTA_update_script], e, ?_, ?_⟩
  · rw [e]
    simp [fetches]
  · rw [e]
    simp

/-- C11, instantiated: the server answers with the current version. -/
theorem C11_update_up_to_date_witness :
    fetches (runEvents cfgSample envSame []) = [cfgSample.OTA_VERSION] ∧
    Event.getPbModelNumber ∉ runEvents cfgSample envSame [] :=
  (C11_update_up_to_date cfgSample envSame [] rfl rfl rfl).2.2

/-- C12. Scenario 3: when connectivity succeeds at every check, the fetched
version is valid and differs from the current one, and the body fetched from
the test URL of the device model is the sentinel, `OTA_update` calls
`OTA_updateFrom` with `OTA_genUrl(OTA_URL_MASK, deviceModel)` and returns
its result; the only fetches are the version query and this probe, so there
is no link lookup and no probe of a linked device. -/
theorem C12_update_primary_download (cfg : Config) (env : Env) (t : Trace)
    (h0 : env.pbNetwork (atStart env t) connect = true)
    (h1 : env.pbNetwork (versionStart env t) connect = true)
    (hV : 5 < (env.webGet (versionStart env t ++ [Event.pbNetwork connect true])
        cfg.OTA_VERSION).length ∧
      (env.webGet (versionStart env t ++ [Event.pbNetwork connect true])
        cfg.OTA_VERSION).length ≤ cfg.OTA_VERSION_MAX_LENGTH ∧
      env.webGet (versionStart env t ++ [Event.pbNetwork connect true]) cfg.OTA_VERSION
        ≠ cfg.CR_PB_VERSION)
    (h2 : env.pbNetwork (primaryStart cfg env t) connect = true)
    (hB : env.webGet (primaryStart cfg env t ++ [Event.pbNetwork connect true])
      (OTA_genUrl cfg.OTA_URL_MASK_TEST env.getPbModelNumber) = cfg.OTA_EXISTS_STR) :
    OTA_update cfg env t =
      OTA_updateFrom (OTA_genUrl cfg.OTA_URL_MASK env.getPbModelNumber)
        (OTA_progress (env.tr txtDownloading) 50 env.getPbModelNumber
          (primaryStart cfg env t ++ [Event.pbNetwork connect true,
            Event.webGet (OTA_genUrl cfg.OTA_URL_MASK_TEST env.getPbModelNumber)])) ∧
    fetches (runEvents cfg env t) =
      [cfg.OTA_VERSION, OTA_genUrl cfg.OTA_URL_MASK_TEST env.getPbModelNumber] := by
  have hver : (versionStage cfg env t).1 = true := by
    rw [versionStage, isNewVersion_fst cfg env _ h1]
    simp [hV.1, hV.2.1, hV.2.2]
  have hprim : (primaryStage cfg env t).1 = true := by
    rw [primaryStage, downloadExists_fst cfg env _ _ h2, hB]
    simp
  constructor
  · rw [OTA_update_stages]
    simp [firstCheck_fst, h0, hver, hprim, primaryStage_snd, h2, netEvents]
  · rw [runEvents_eq]
    simp [script, netEvents, h0, h1, h2, hver, hprim, fetches]

/-- C12, instantiated: a new version and a package for device 626. -/
theorem C12_update_primary_download_witness :
    fetches (runEvents cfgSample envProbe []) =
      [cfgSample.OTA_VERSION, OTA_genUrl cfgSample.OTA_URL_MASK_TEST envProbe.getPbModelNumber] :=
  (C12_update_primary_download cfgSample envProbe [] rfl rfl (by decide) rfl rfl).2

/-- C13. Scenario 4: when there is a new version, the probe of the device
model fails and the link lookup returns the empty string, `OTA_update`
ends with the message "Update is not available for your device!" followed
by the device model, and returns false; after the link lookup it only
closes the progress bar and shows the message, so no fetch follows the
lookup and no linked device is probed. -/
theorem C13_update_not_available (cfg : Config) (env : Env) (t : Trace)
    (h0 : env.pbNetwork (atStart env t) connect = true)
    (hver : (versionStage cfg env t).1 = true)
    (hprim : (primaryStage cfg env t).1 = false)
    (hL : (linkStage cfg env t).1 = []) :
    OTA_update cfg env t =
      (false, (linkStage cfg env t).2 ++ [Event.CloseProgressbar,
        Event.Message Icon.ICON_WARNING CoolReader
          (env.tr txtNotAvailable ++ env.getPbModelNumber) 5000]) ∧
    fetches (OTA_update cfg env t).2 = fetches (linkStage cfg env t).2 ∧
    messages (runEvents cfg env t) =
      [Event.Message Icon.ICON_WARNING CoolReader
        (env.tr txtNotAvailable ++ env.getPbModelNumber) 5000] := by
  have e : OTA_update cfg env t =
      (false, (linkStage cfg env t).2 ++ [Event.CloseProgressbar,
        Event.Message Icon.ICON_WARNING CoolReader
          (env.tr txtNotAvailable ++ env.getPbModelNumber) 5000]) := by
    rw [OTA_update_stages]
    simp [firstCheck_fst, h0, hver, hprim, hL]
  refine ⟨e, ?_, ?_⟩
  · rw [e]
    simp [fetches_append, fetches]
  · rw [runEvents_eq]
    simp [script, h0, hver, hprim, hL, messages, filter_isMessage_netEvents,
      Event.isMessage]

/-- C13, instantiated: a new version, no package, no link. -/
theorem C13_update_not_available_witness :
    messages (runEvents cfgSample envNoLink []) =
      [Event.Message Icon.ICON_WARNING CoolReader
        (envNoLink.tr txtNotAvailable ++ envNoLink.getPbModelNumber) 5000] :=
  (C13_update_not_available cfgSample envNoLink [] rfl (by decide) (by decide)
    (by decide)).2.2

/-- C14. Scenario 5: when there is a new version, the probe of the device
model fails, the link lookup returns a linked model (non-empty, hence within
the bound) and the probe of the linked model fails too, `OTA_update` ends
with the message "Failed updating!" and returns false; this message is the
only one of the run, and the result is not the one of a call of the download
step `OTA_updateFrom`, which is never made. -/
theorem C14_update_failed (cfg : Config) (env : Env) (t : Trace)
    (h0 : env.pbNetwork (atStart env t) connect = true)
    (hver : (versionStage cfg env t).1 = true)
    (hprim : (primaryStage cfg env t).1 = false)
    (hL : (linkStage cfg env t).1 ≠ [])
    (hlinked : (linkedStage cfg env t).1 = false) :
    OTA_update cfg env t =
      (false, (linkedStage cfg env t).2 ++ [Event.CloseProgressbar,
        Event.Message Icon.ICON_ERROR CoolReader (env.tr txtFailed) 2000]) ∧
    messages (runEvents cfg env t) =
      [Event.Message Icon.ICON_ERROR CoolReader (env.tr txtFailed) 2000] ∧
    (∀ url s, OTA_update cfg env t ≠ OTA_updateFrom url s) := by
  have e : OTA_update cfg env t =
      (false, (linkedStage cfg env t).2 ++ [Event.CloseProgressbar,
        Event.Message Icon.ICON_ERROR CoolReader (env.tr txtFailed) 2000]) := by
    rw [OTA_update_stages]
    simp [firstCheck_fst, h0, hver, hprim, hL, hlinked]
  refine ⟨e, ?_, ?_⟩
  · rw [runEvents_eq]
    simp [script, h0, hver, hprim, hL, hlinked, messages, filter_isMessage_netEvents,
      Event.isMessage]
  · intro url s h
    rw [e, OTA_updateFrom] at h
    have h' := last_of_two _ _ _ _ _ _ (congrArg Prod.snd h)
    simp at h'

/-- C14, instantiated: a new version, device 626 without package and linked
to device 627, which has none either. -/
theorem C14_update_failed_witness :
    messages (runEvents cfgSample envTwinFail []) =
      [Event.Message Icon.ICON_ERROR CoolReader (envTwinFail.tr txtFailed) 2000] :=
  (C14_update_failed cfgSample envTwinFail [] rfl (by decide) (by decide) (by decide)
    (by decide)).2.1

/-- C15. The linked-device success path: when there is a new version, the
probe of the device model fails, the link lookup returns the linked model
`L`, and the body fetched from the test URL of `L` is the sentinel,
`OTA_update` calls `OTA_updateFrom` with `OTA_genUrl(OTA_URL_MASK, L)`, the
URL of the linked model, and returns its result. -/
theorem C15_update_linked_download (cfg : Config) (env : Env) (t : Trace) (L : Str)
    (h0 : env.pbNetwork (atStart env t) connect = true)
    (hver : (versionStage cfg env t).1 = true)
    (hprim : (primaryStage cfg env t).1 = false)
    (hL : (linkStage cfg env t).1 = L) (hne : L ≠ [])
    (h4 : env.pbNetwork (linkedStart cfg env t) connect = true)
    (hB : env.webGet (linkedStart cfg env t ++ [Event.pbNetwork connect true])
      (OTA_genUrl cfg.OTA_URL_MASK_TEST L) = cfg.OTA_EXISTS_STR) :
    OTA_update cfg env t =
      OTA_updateFrom (OTA_genUrl cfg.OTA_URL_MASK L)
        (OTA_progress (env.tr txtDownloading) 50 L
          (linkedStart cfg env t ++ [Event.pbNetwork connect true,
            Event.webGet (OTA_genUrl cfg.OTA_URL_MASK_TEST L)])) ∧
    messages (runEvents cfg env t) =
      [Event.Message Icon.ICON_INFORMATION CoolReader (OTA_genUrl cfg.OTA_URL_MASK L) 5000] := by
  have hlinked : (linkedStage cfg env t).1 = true := by
    rw [linkedStage, downloadExists_fst cfg env _ _ h4, hL, hB]
    simp
  have hL' : (linkStage cfg env t).1 ≠ [] := by
    rw [hL]
    exact hne
  constructor
  · rw [OTA_update_stages]
    simp [firstCheck_fst, h0, hver, hprim, hL', hlinked, linkedStage_snd, h4, netEvents]
    simp [hL]
  · rw [runEvents_eq]
    simp [script, h0, hver, hprim, hL', hlinked, messages, filter_isMessage_netEvents,
      Event.isMessage]
    simp [hL]

/-- C15, instantiated: device 626 has no package and is linked to device
627, which has one; the download URL is the one of 627. -/
theorem C15_update_linked_download_witness :
    messages (runEvents cfgSample envTwin []) =
      [Event.Message Icon.ICON_INFORMATION CoolReader
        (OTA_genUrl cfgSample.OTA_URL_MASK "627".toList) 5000] :=
  (C15_update_linked_download cfgSample envTwin [] "627".toList rfl (by decide) (by decide)
    (by decide) (by decide) rfl (by decide)).2

/-- C18. `OTA_update` returns false in every environment: so does
`OTA_updateFrom` for every URL, and every other end of the run returns false
itself, so the documented result "true if updated" is never produced. -/
theorem C18_update_returns_false (cfg : Config) (env : Env) (t : Trace) :
    (OTA_update cfg env t).1 = false ∧ (∀ url s, (OTA_updateFrom url s).1 = false) := by
  have h : (OTA_update cfg env t).1 = false := by
    rw [OTA_update_stages]
    simp only [OTA_updateFrom]
    split
    · rfl
    · split
      · rfl
      · split
        · rfl
        · split
          · rfl
          · split <;> rfl
  exact ⟨h, fun _ _ => rfl⟩

/-- C19. When the first connectivity check succeeds and the connectivity
check inside `OTA_isNewVersion` fails, or the fetched version body has
length at most 5 (the empty body included) or length above
`OTA_VERSION_MAX_LENGTH`, `OTA_update` ends with the message "You have the
latest version.", exactly as when the fetched version is the current one,
and makes no device-model lookup and no probe: its only possible fetch is
the version query. -/
theorem C19_update_conflates (cfg : Config) (env : Env) (t : Trace)
    (h0 : env.pbNetwork (atStart env t) connect = true)
    (h : env.pbNetwork (versionStart env t) connect = false ∨
      (env.webGet (versionStart env t ++ [Event.pbNetwork connect true])
        cfg.OTA_VERSION).length ≤ 5 ∨
      cfg.OTA_VERSION_MAX_LENGTH <
        (env.webGet (versionStart env t ++ [Event.pbNetwork connect true])
          cfg.OTA_VERSION).length ∨
      env.webGet (versionStart env t ++ [Event.pbNetwork connect true]) cfg.OTA_VERSION
        = cfg.CR_PB_VERSION) :
    OTA_update cfg env t =
      (false, (versionStage cfg env t).2 ++ [Event.CloseProgressbar,
        Event.Message Icon.ICON_INFORMATION CoolReader (env.tr txtLatest) 2000]) ∧
    messages (runEvents cfg env t) =
      [Event.Message Icon.ICON_INFORMATION CoolReader (env.tr txtLatest) 2000] ∧
    Event.getPbModelNumber ∉ runEvents cfg env t ∧
    fetches (runEvents cfg env t) <+: [cfg.OTA_VERSION] := by
  have hver : (versionStage cfg env t).1 = false := by
    cases h1 : env.pbNetwork (versionStart env t) connect with
    | false => simp [versionStage, OTA_isNewVersion, pbNetwork, h1]
    | true =>
      rw [versionStage, isNewVersion_fst cfg env _ h1]
      rcases h with h | h | h | h
      · rw [h1] at h
        cases h
      · have : ¬ 5 < (env.webGet (versionStart env t ++ [Event.pbNetwork connect true])
            cfg.OTA_VERSION).length := by omega
        simp [this]
      · have : ¬ (env.webGet (versionStart env t ++ [Event.pbNetwork connect true])
            cfg.OTA_VERSION).length ≤ cfg.OTA_VERSION_MAX_LENGTH := by omega
        simp [this]
      · simp [h]
  refine ⟨?_, ?_, ?_, ?_⟩
  · rw [OTA_update_stages]
    simp [firstCheck_fst, h0, hver]
  · rw [runEvents_eq]
    simp [script, h0, hver, messages, filter_isMessage_netEvents, Event.isMessage]
  · rw [runEvents_eq]
    simp [script, h0, hver, getPbModelNumber_not_mem_netEvents]
  · rw [runEvents_eq]
    cases env.pbNetwork (versionStart env t) connect <;>
      simp [script, h0, hver, netEvents, fetches]

/-- C19, instantiated: the server answers the version query with the
three-character body `yes`. -/
theorem C19_update_conflates_witness :
    messages (runEvents cfgSample envYes []) =
      [Event.Message Icon.ICON_INFORMATION CoolReader (envYes.tr txtLatest) 2000] :=
  (C19_update_conflates cfgSample envYes [] rfl (Or.inr (Or.inl (by decide)))).2.1

/-! ## The messages of the package validation -/

/-- C16. The gates of `OTA_gotValidPackage` short-circuit, each with its
own message: when a gate fails, the run stops right after it, the earlier
gates having passed and no later gate being tried, and shows exactly one
message, the one of that gate ("Couldn't open download dir!", "Couldn't open
downloaded file!", "Downloaded file is not an archive!", "Invalid update
package!", four different texts); when the four gates pass no message is
shown. -/
theorem C16_gotValidPackage_messages (cfg : Config) (env : Env) (fs : FileSystem)
    (t : Trace) :
    (fs.LVOpenDirectory cfg.OTA_DOWNLOAD_DIR = none →
      OTA_gotValidPackage cfg env fs t = (false, t ++
        [Event.LVOpenDirectory cfg.OTA_DOWNLOAD_DIR,
         Event.Message Icon.ICON_ERROR CoolReader (env.tr txtNoDir) 2000])) ∧
    (∀ d, fs.LVOpenDirectory cfg.OTA_DOWNLOAD_DIR = some d →
      fs.OpenStream d cfg.OTA_PACKAGE_NAME lvopen_mode_t.LVOM_READ = none →
      OTA_gotValidPackage cfg env fs t = (false, t ++
        [Event.LVOpenDirectory cfg.OTA_DOWNLOAD_DIR,
         Event.OpenStream d cfg.OTA_PACKAGE_NAME lvopen_mode_t.LVOM_READ,
         Event.Message Icon.ICON_ERROR CoolReader (env.tr txtNoFile) 2000])) ∧
    (∀ d f, fs.LVOpenDirectory cfg.OTA_DOWNLOAD_DIR = some d →
      fs.OpenStream d cfg.OTA_PACKAGE_NAME lvopen_mode_t.LVOM_READ = some f →
      fs.LVOpenArchieve f = none →
      OTA_gotValidPackage cfg env fs t = (false, t ++
        [Event.LVOpenDirectory cfg.OTA_DOWNLOAD_DIR,
         Event.OpenStream d cfg.OTA_PACKAGE_NAME lvopen_mode_t.LVOM_READ,
         Event.LVOpenArchieve f,
         Event.Message Icon.ICON_ERROR CoolReader (env.tr txtNotArchive) 2000])) ∧
    (∀ d f a, fs.LVOpenDirectory cfg.OTA_DOWNLOAD_DIR = some d →
      fs.OpenStream d cfg.OTA_PACKAGE_NAME lvopen_mode_t.LVOM_READ = some f →
      fs.LVOpenArchieve f = some a →
      fs.OpenStream a binaryEntry lvopen_mode_t.LVOM_READ = none →
      OTA_gotValidPackage cfg env fs t = (false, t ++
        [Event.LVOpenDirectory cfg.OTA_DOWNLOAD_DIR,
         Event.OpenStream d cfg.OTA_PACKAGE_NAME lvopen_mode_t.LVOM_READ,
         Event.LVOpenArchieve f,
         Event.OpenStream a binaryEntry lvopen_mode_t.LVOM_READ,
         Event.Message Icon.ICON_ERROR CoolReader (env.tr txtInvalidPackage) 2000])) ∧
    (∀ d f a b, fs.LVOpenDirectory cfg.OTA_DOWNLOAD_DIR = some d →
      fs.OpenStream d cfg.OTA_PACKAGE_NAME lvopen_mode_t.LVOM_READ = some f →
      fs.LVOpenArchieve f = some a →
      fs.OpenStream a binaryEntry lvopen_mode_t.LVOM_READ = some b →
      OTA_gotValidPackage cfg env fs t = (true, t ++
        [Event.LVOpenDirectory cfg.OTA_DOWNLOAD_DIR,
         Event.OpenStream d cfg.OTA_PACKAGE_NAME lvopen_mode_t.LVOM_READ,
         Event.LVOpenArchieve f,
         Event.OpenStream a binaryEntry lvopen_mode_t.LVOM_READ])) ∧
    (messages ((OTA_gotValidPackage cfg env fs t).2.drop t.length)).length =
      (if (OTA_gotValidPackage cfg env fs t).1 then 0 else 1) ∧
    [txtNoDir, txtNoFile, txtNotArchive, txtInvalidPackage].Nodup := by
  refine ⟨?_, ?_, ?_, ?_, ?_, ?_, by decide⟩
  · intro h1
    simp [OTA_gotValidPackage, h1]
  · intro d h1 h2
    simp [OTA_gotValidPackage, h1, h2]
  · intro d f h1 h2 h3
    simp [OTA_gotValidPackage, h1, h2, h3]
  · intro d f a h1 h2 h3 h4
    simp [OTA_gotValidPackage, h1, h2, h3, h4]
  · intro d f a b h1 h2 h3 h4
    simp [OTA_gotValidPackage, h1, h2, h3, h4]
  · cases h1 : fs.LVOpenDirectory cfg.OTA_DOWNLOAD_DIR with
    | none => simp [OTA_gotValidPackage, h1, messages, Event.isMessage]
    | some d =>
      cases h2 : fs.OpenStream d cfg.OTA_PACKAGE_NAME lvopen_mode_t.LVOM_READ with
      | none => simp [OTA_gotValidPackage, h1, h2, messages, Event.isMessage]
      | some f =>
        cases h3 : fs.LVOpenArchieve f with
        | none => simp [OTA_gotValidPackage, h1, h2, h3, messages, Event.isMessage]
        | some a =>
          cases h4 : fs.OpenStream a binaryEntry lvopen_mode_t.LVOM_READ with
          | none => simp [OTA_gotValidPackage, h1, h2, h3, h4, messages, Event.isMessage]
          | some b => simp [OTA_gotValidPackage, h1, h2, h3, h4, messages, Event.isMessage]

/-! ## Whole runs -/

/-- C17, as stated, fails: when the connectivity check of the first probe
fails and the one of the link lookup succeeds, the probe issues no fetch and
the run goes on, so that the URLs fetched are the version query, the link
lookup and the test URL of the linked device, which is not a beginning of
the four URLs of the claim. -/
theorem C17_fetches_no_beginning :
    fetches (runEvents cfgSample envFlap []) = ["v".toList, "l/626".toList, "t/627".toList] ∧
    ¬ fetches (runEvents cfgSample envFlap []) <+:
      [cfgSample.OTA_VERSION,
       OTA_genUrl cfgSample.OTA_URL_MASK_TEST envFlap.getPbModelNumber,
       lString16_replace cfgSample.OTA_LINK_MASK DEVICE envFlap.getPbModelNumber,
       OTA_genUrl cfgSample.OTA_URL_MASK_TEST (linkStage cfgSample envFlap []).1] := by
  decide

theorem fetches_script (cfg : Config) (env : Env) (b0 b1 ver b2 prim b3 : Bool) (L : Str)
    (b4 linked : Bool) :
    fetches (script cfg env b0 b1 ver b2 prim b3 L b4 linked) =
      if !b0 then [] else
        (if b1 then [cfg.OTA_VERSION] else []) ++
        if !ver then [] else
          (if b2 then [OTA_genUrl cfg.OTA_URL_MASK_TEST env.getPbModelNumber] else []) ++
          if prim then [] else
            (if b3 then [lString16_replace cfg.OTA_LINK_MASK DEVICE env.getPbModelNumber]
              else []) ++
            if L.isEmpty then [] else
              (if b4 then [OTA_genUrl cfg.OTA_URL_MASK_TEST L] else []) := by
  unfold script
  cases b0 <;> cases ver <;> cases prim <;> cases linked <;> cases L <;>
    simp [fetches_append, fetches_netEvents, fetches]

theorem close_not_mem_netEvents (b : Bool) (url : Str) :
    Event.CloseProgressbar ∉ netEvents b url := by
  cases b <;> simp [netEvents]

theorem filter_isOpenProgressbar_netEvents (b : Bool) (url : Str) :
    List.filter Event.isOpenProgressbar (netEvents b url) = [] := by
  cases b <;> simp [netEvents, Event.isOpenProgressbar]

theorem shape_base (m : Event) (h : m.isMessage = true) :
    ∃ pre n, [Event.CloseProgressbar, m] = pre ++ [Event.CloseProgressbar, n] ∧
      n.isMessage = true ∧ Event.CloseProgressbar ∉ pre ∧ messages pre = [] :=
  ⟨[], m, rfl, h, by simp, rfl⟩

theorem shape_append (a b : Trace) (ha : Event.CloseProgressbar ∉ a) (hm : messages a = [])
    (hb : ∃ pre n, b = pre ++ [Event.CloseProgressbar, n] ∧
      n.isMessage = true ∧ Event.CloseProgressbar ∉ pre ∧ messages pre = []) :
    ∃ pre n, a ++ b = pre ++ [Event.CloseProgressbar, n] ∧
      n.isMessage = true ∧ Event.CloseProgressbar ∉ pre ∧ messages pre = [] := by
  obtain ⟨pre, n, hb, hn, hc, hp⟩ := hb
  refine ⟨a ++ pre, n, by rw [hb, List.append_assoc], hn, ?_, ?_⟩
  · simp [ha, hc]
  · rw [messages_append, hm, hp]
    rfl

/-- A run that passed the first connectivity check ends with
`CloseProgressbar` followed by a message box, and holds no other
`CloseProgressbar` and no other message box. -/
theorem script_shape (cfg : Config) (env : Env) (b1 ver b2 prim b3 : Bool) (L : Str)
    (b4 linked : Bool) :
    ∃ pre n, script cfg env true b1 ver b2 prim b3 L b4 linked
        = pre ++ [Event.CloseProgressbar, n] ∧
      n.isMessage = true ∧ Event.CloseProgressbar ∉ pre ∧ messages pre = [] := by
  have hplain : ∀ (a : Trace) (b : Bool) (u : Str), Event.CloseProgressbar ∉ a →
      messages a = [] → Event.CloseProgressbar ∉ a ++ netEvents b u ∧
        messages (a ++ netEvents b u) = [] := by
    intro a b u ha hm
    constructor
    · simp [ha, close_not_mem_netEvents]
    · rw [messages_append, hm, messages_netEvents]
      rfl
  have hU : ∀ (x : Str) (n : Int), Event.CloseProgressbar ∉ [Event.UpdateProgressbar x n] ∧
      messages [Event.UpdateProgressbar x n] = [] := by
    intro x n
    exact ⟨by simp, rfl⟩
  have hG : ∀ (x : Str) (n : Int),
      Event.CloseProgressbar ∉ [Event.getPbModelNumber, Event.UpdateProgressbar x n] ∧
      messages [Event.getPbModelNumber, Event.UpdateProgressbar x n] = [] := by
    intro x n
    exact ⟨by simp, rfl⟩
  unfold script
  refine shape_append _ _ (by simp) rfl ?_
  simp only [Bool.not_true, Bool.false_eq_true, if_false]
  refine shape_append _ _ (hplain _ b1 _ (hU _ _).1 (hU _ _).2).1
    (hplain _ b1 _ (hU _ _).1 (hU _ _).2).2 ?_
  cases ver
  · exact shape_base _ rfl
  · simp only [Bool.not_true, Bool.false_eq_true, if_false]
    refine shape_append _ _ (hplain _ b2 _ (hG _ _).1 (hG _ _).2).1
      (hplain _ b2 _ (hG _ _).1 (hG _ _).2).2 ?_
    cases prim
    · simp only [Bool.false_eq_true, if_false]
      refine shape_append _ _ (hplain _ b3 _ (hU _ _).1 (hU _ _).2).1
        (hplain _ b3 _ (hU _ _).1 (hU _ _).2).2 ?_
      cases L with
      | nil => exact shape_base _ rfl
      | cons c cs =>
        simp only [List.isEmpty_cons, Bool.false_eq_true, if_false]
        refine shape_append _ _ (hplain _ b4 _ (hU _ _).1 (hU _ _).2).1
          (hplain _ b4 _ (hU _ _).1 (hU _ _).2).2 ?_
        cases linked
        · exact shape_base _ rfl
        · exact shape_append [_] _ (hU _ _).1 (hU _ _).2 (shape_base _ rfl)
    · exact shape_append [_] _ (hU _ _).1 (hU _ _).2 (shape_base _ rfl)

/-- Every run ends with a message box. -/
theorem script_ends_with_message (cfg : Config) (env : Env) (b0 b1 ver b2 prim b3 : Bool)
    (L : Str) (b4 linked : Bool) :
    ∃ m, (script cfg env b0 b1 ver b2 prim b3 L b4 linked).getLast? = some m ∧
      m.isMessage = true := by
  cases b0 with
  | false => exact ⟨_, rfl, rfl⟩
  | true =>
    obtain ⟨pre, n, h, hn, _, _⟩ := script_shape cfg env b1 ver b2 prim b3 L b4 linked
    refine ⟨n, ?_, hn⟩
    rw [h]
    simp

/-- C17, amended. The run is sequential and short-circuiting: the URLs it
fetches are, in order, a beginning of the version query, the test URL of the
device model, the link-lookup URL and the test URL of the linked device,
except that the test URL of the device model is left out when the
connectivity check of that probe fails (the probe then fails without a fetch
and the run goes on to the link lookup). So a run issues at most four
fetches, and it always ends, with a message box as its last event. -/
theorem C17_update_fetch_order (cfg : Config) (env : Env) (t : Trace) :
    (env.pbNetwork (primaryStart cfg env t) connect = true →
      fetches (runEvents cfg env t) <+:
        [cfg.OTA_VERSION,
         OTA_genUrl cfg.OTA_URL_MASK_TEST env.getPbModelNumber,
         lString16_replace cfg.OTA_LINK_MASK DEVICE env.getPbModelNumber,
         OTA_genUrl cfg.OTA_URL_MASK_TEST (linkStage cfg env t).1]) ∧
    (env.pbNetwork (primaryStart cfg env t) connect = false →
      fetches (runEvents cfg env t) <+:
        [cfg.OTA_VERSION,
         lString16_replace cfg.OTA_LINK_MASK DEVICE env.getPbModelNumber,
         OTA_genUrl cfg.OTA_URL_MASK_TEST (linkStage cfg env t).1]) ∧
    (fetches (runEvents cfg env t)).length ≤ 4 ∧
    (∃ m, (runEvents cfg env t).getLast? = some m ∧ m.isMessage = true) := by
  have c1 : (versionStage cfg env t).1 = true →
      env.pbNetwork (versionStart env t) connect = true :=
    isNewVersion_connected cfg env _
  have c3 : (linkStage cfg env t).1 ≠ [] →
      env.pbNetwork (linkStart cfg env t) connect = true :=
    getLinkedDevice_connected cfg env _ _
  rw [runEvents_eq, fetches_script]
  refine ⟨?_, ?_, ?_, script_ends_with_message _ _ _ _ _ _ _ _ _ _ _⟩
  · intro h2
    rw [h2]
    generalize env.pbNetwork (atStart env t) connect = b0
    generalize env.pbNetwork (versionStart env t) connect = b1 at c1 ⊢
    generalize (versionStage cfg env t).1 = ver at c1 ⊢
    generalize (primaryStage cfg env t).1 = prim
    generalize env.pbNetwork (linkStart cfg env t) connect = b3 at c3 ⊢
    generalize env.pbNetwork (linkedStart cfg env t) connect = b4
    generalize (linkStage cfg env t).1 = L at c3 ⊢
    cases b0 <;> cases b1 <;> cases ver <;> cases prim <;> cases b3 <;> cases b4 <;>
      cases L <;> simp_all
  · intro h2
    rw [h2]
    generalize env.pbNetwork (atStart env t) connect = b0
    generalize env.pbNetwork (versionStart env t) connect = b1 at c1 ⊢
    generalize (versionStage cfg env t).1 = ver at c1 ⊢
    generalize (primaryStage cfg env t).1 = prim
    generalize env.pbNetwork (linkStart cfg env t) connect = b3 at c3 ⊢
    generalize env.pbNetwork (linkedStart cfg env t) connect = b4
    generalize (linkStage cfg env t).1 = L at c3 ⊢
    cases b0 <;> cases b1 <;> cases ver <;> cases prim <;> cases b3 <;> cases b4 <;>
      cases L <;> simp_all
  · generalize env.pbNetwork (atStart env t) connect = b0
    generalize env.pbNetwork (versionStart env t) connect = b1
    generalize (versionStage cfg env t).1 = ver
    generalize env.pbNetwork (primaryStart cfg env t) connect = b2
    generalize (primaryStage cfg env t).1 = prim
    generalize env.pbNetwork (linkStart cfg env t) connect = b3
    generalize env.pbNetwork (linkedStart cfg env t) connect = b4
    generalize (linkStage cfg env t).1 = L
    cases b0 <;> cases b1 <;> cases ver <;> cases b2 <;> cases prim <;> cases b3 <;>
      cases b4 <;> cases L <;> simp

theorem script_opens_once (cfg : Config) (env : Env) (b0 b1 ver b2 prim b3 : Bool)
    (L : Str) (b4 linked : Bool) :
    ∃ rest, script cfg env b0 b1 ver b2 prim b3 L b4 linked =
        Event.OpenProgressbar Icon.ICON_INFORMATION (env.tr txtTitle)
          (env.tr txtCheckingNetwork) 0 :: rest ∧
      List.filter Event.isOpenProgressbar rest = [] := by
  refine ⟨_, rfl, ?_⟩
  cases b0 <;> cases ver <;> cases prim <;> cases linked <;> cases L <;>
    simp [filter_isOpenProgressbar_netEvents, Event.isOpenProgressbar]

/-- C20. The progress bar in a run of `OTA_update`: the first event of
every run opens the bar, and no later event opens it again; a run that
passes the first connectivity check ends with `CloseProgressbar` followed by
one message box, with no other `CloseProgressbar` and no other message box
before them, so that the bar is closed exactly once, after every progress
update and before the only message; a run whose first connectivity check
fails shows its message without ever calling `CloseProgressbar`, which
leaves the bar open. -/
theorem C20_progressbar_discipline (cfg : Config) (env : Env) (t : Trace) :
    (∃ rest, runEvents cfg env t =
        Event.OpenProgressbar Icon.ICON_INFORMATION (env.tr txtTitle)
          (env.tr txtCheckingNetwork) 0 :: rest ∧
      List.filter Event.isOpenProgressbar rest = []) ∧
    (env.pbNetwork (atStart env t) connect = true →
      ∃ pre m, runEvents cfg env t = pre ++ [Event.CloseProgressbar, m] ∧
        m.isMessage = true ∧ Event.CloseProgressbar ∉ pre ∧ messages pre = []) ∧
    (env.pbNetwork (atStart env t) connect = false →
      runEvents cfg env t =
        [Event.OpenProgressbar Icon.ICON_INFORMATION (env.tr txtTitle)
           (env.tr txtCheckingNetwork) 0,
         Event.pbNetwork connect false,
         Event.Message Icon.ICON_ERROR CoolReader (env.tr txtNoNetwork) 2000] ∧
      Event.CloseProgressbar ∉ runEvents cfg env t) := by
  rw [runEvents_eq]
  refine ⟨script_opens_once _ _ _ _ _ _ _ _ _ _ _, ?_, ?_⟩
  · intro h0
    rw [h0]
    exact script_shape _ _ _ _ _ _ _ _ _ _
  · intro h0
    rw [h0]
    simp [script]

end OtaUpdate
